import Mathlib

/-!
Verification development for the radio-ads-manager ingestion and reconciliation
engine.  The Python sources under `backend/` are shallowly embedded: the
SQLAlchemy-backed database session becomes an explicit `DB` record of row
lists, ORM queries become list searches (`.first()` = first row in list order,
mirroring an un-ordered SQL scan over insertion order), and in-place ORM
mutation becomes functional update keyed by primary key.  Dates are day
indices (day 0 is a Monday, so `isoweekday = dia % 7 + 1`), times are seconds
since midnight.  Python integers are `Int`, SQL `NULL`able columns are
`Option`.
-/

namespace RadioAds

/-- Python truthiness of an optional string: `None` and `""` are falsy. -/
def strTruthy : Option String → Bool
  | none => false
  | some s => !(s == "")

/-- Python truthiness of an optional integer id: `None` and `0` are falsy. -/
def natTruthy : Option Nat → Bool
  | none => false
  | some n => !(n == 0)

/-- Python `str.strip()`: drop leading and trailing whitespace (whitespace
class approximated by `Char.isWhitespace`). -/
def pyStrip (s : String) : String :=
  String.mk (((s.data.dropWhile Char.isWhitespace).reverse.dropWhile
    Char.isWhitespace).reverse)

/-- Python `str.lower()`, modelled on ASCII, which covers every value the
code compares after diacritics are stripped. -/
def pyLower (s : String) : String := String.mk (s.data.map Char.toLower)

/-- Python `str.strip().lower()` as used on config values and file names. -/
def pyStripLower (s : String) : String := pyLower (pyStrip s)

/-- Python `str.startswith(p)`. -/
def pyStartsWith (s p : String) : Bool := p.data.isPrefixOf s.data

/-- Python `str.endswith(p)`. -/
def pyEndsWith (s p : String) : Bool := p.data.reverse.isPrefixOf s.data.reverse

/-- Python `str.split(sep)` for a one-character separator, keeping empty
pieces (also the behavior of `String.splitOn` for these inputs). -/
def pySplitCharAux (sep : Char) : List Char → List Char → List String
  | [], acc => [String.mk acc.reverse]
  | c :: resto, acc =>
    if c == sep then String.mk acc.reverse :: pySplitCharAux sep resto []
    else pySplitCharAux sep resto (c :: acc)

/-- Python `str.split(sep)` on a string, one-character separator. -/
def pySplitChar (sep : Char) (s : String) : List String :=
  pySplitCharAux sep s.data []

/-- SQL equality of a non-null column against a nullable parameter:
comparison with `NULL` is never satisfied. -/
def sqlEqNat (a : Nat) (b : Option Nat) : Bool :=
  match b with
  | none => false
  | some x => a == x

/-- Timestamp of an airing: calendar day index plus seconds since midnight.
Day 0 is chosen to be a Monday so that `isoweekday` is `dia % 7 + 1`. -/
structure DataHora where
  dia : Nat
  segundos : Nat
  deriving DecidableEq, Repr

/-- Python `datetime.isoweekday()`: 1 = Monday .. 7 = Sunday. -/
def DataHora.isoweekday (dh : DataHora) : Nat := dh.dia % 7 + 1

/-- Row of `arquivos_audio` (`models.ArquivoAudio`), fields used by the engine. -/
structure ArquivoAudio where
  id : Nat
  cliente_id : Nat
  nome_arquivo : String
  deriving DecidableEq, Repr

/-- Row of `contratos` (`models.Contrato`), fields used by the engine.
`frequencia` is nullable with default `"ambas"`; `data_fim` nullable. -/
structure Contrato where
  id : Nat
  cliente_id : Nat
  data_inicio : Nat
  data_fim : Option Nat
  frequencia : Option String
  status_contrato : String
  deriving DecidableEq, Repr

/-- Row of `contrato_itens` (`models.ContratoItem`), fields used by the engine. -/
structure ContratoItem where
  id : Nat
  contrato_id : Nat
  tipo_programa : String
  quantidade_executada : Int
  deriving DecidableEq, Repr

/-- Row of `contrato_arquivo_metas` (`models.ContratoArquivoMeta`). -/
structure ContratoArquivoMeta where
  id : Nat
  contrato_id : Nat
  arquivo_audio_id : Nat
  quantidade_executada : Int
  ativo : Bool
  deriving DecidableEq, Repr

/-- Row of `veiculacoes` (`models.Veiculacao`).  `arquivo_audio_id` is nullable
since migration 0011; `nome_arquivo_raw` holds the raw basename for
unregistered plays.  `motivo_nao_contabilizada` is the column added by
migration 0015; it is not mapped in `models.py`, so no code under `app/` can
read or write it and it stays at its `NULL` default. -/
structure Veiculacao where
  id : Nat
  arquivo_audio_id : Option Nat
  nome_arquivo_raw : Option String
  contrato_id : Option Nat
  data_hora : DataHora
  frequencia : Option String
  tipo_programa : Option String
  fonte : Option String
  processado : Bool
  contabilizada : Bool
  motivo_nao_contabilizada : Option String
  deriving DecidableEq, Repr

/-- The database state touched by the ingestion/reconciliation engine. -/
structure DB where
  arquivos : List ArquivoAudio
  contratos : List Contrato
  itens : List ContratoItem
  metas : List ContratoArquivoMeta
  veiculacoes : List Veiculacao
  deriving DecidableEq, Repr

/-- One audit-exemption rule, the parsed form of one
`frequencia|dias_iso|hh:mm-hh:mm|motivo` chunk. -/
structure RegraBloqueio where
  frequencia : String
  dias : List Nat
  inicio : Nat
  fim : Nat
  motivo : String
  deriving DecidableEq, Repr

/-- Process environment read by the service via `os.getenv`:
`CONTRATO_ITEM_FALLBACK_STRATEGY` (raw value, default `"first"`) and the
parsed `AUTO_AUDIT_BLOCK_WINDOWS` rules. -/
structure Env where
  fallbackStrategy : String
  regras : List RegraBloqueio
  deriving DecidableEq, Repr

/-- Python `int(...)` on a stripped token, modelled for non-negative decimal
literals; `none` where `int` would raise `ValueError`.  (The Python function
also accepts signs and underscores, which no configured rule uses.) -/
def pyParseNat (s : String) : Option Nat :=
  let t := pyStrip s
  if t.data.length > 0 && t.data.all Char.isDigit then
    some (t.data.foldl (fun acc c => acc * 10 + (c.toNat - 48)) 0)
  else
    none

/-- The `_parse_hora` helper: pad `HH:MM` to `HH:MM:SS`, then
`time.fromisoformat`, returned as seconds since midnight.  Partial model of
`fromisoformat`: accepts numeric `HH:MM:SS` within range, `none` where the
Python call would raise. -/
def parseHora (valor : String) : Option Nat :=
  let raw := pyStrip valor
  let raw := if (pySplitChar ':' raw).length == 2 then raw ++ ":00" else raw
  match (pySplitChar ':' raw).map pyParseNat with
  | [some h, some m, some s] =>
    if h < 24 && m < 60 && s < 60 then some (h * 3600 + m * 60 + s) else none
  | _ => none

/-- The `_parse_dias_semana` helper: comma-separated day numbers or
`ini-fim` ranges; `none` where `int(...)` would raise. -/
def parseDiasSemana (valor : String) : Option (List Nat) :=
  let trechos := (pySplitChar ',' valor).map pyStrip
  let passo : Option (List Nat) → String → Option (List Nat) := fun acc item =>
    match acc with
    | none => none
    | some dias =>
      if item == "" then some dias
      else if item.data.contains '-' then
        match pySplitChar '-' item with
        | ini :: resto =>
          match pyParseNat ini, pyParseNat (String.intercalate "-" resto) with
          | some i, some f => some (dias ++ (List.range (f + 1)).filter (fun d => i ≤ d))
          | _, _ => none
        | [] => none
      else
        match pyParseNat item with
        | some d => some (dias ++ [d])
        | none => none
  trechos.foldl passo (some [])

/-- The `_carregar_regras_bloqueio` parser over the raw
`AUTO_AUDIT_BLOCK_WINDOWS` value (default
`102.7|1-5|11:00-14:00|obs_video`): semicolon-separated chunks, each
`frequencia|dias|janela|motivo`; chunks that are empty, have the wrong number
of parts or no `-` in the window are skipped; `none` models the exception a
malformed kept chunk would raise. -/
def carregarRegrasBloqueio (raw : String) : Option (List RegraBloqueio) :=
  let chunks := pySplitChar ';' raw
  let passo : Option (List RegraBloqueio) → String → Option (List RegraBloqueio) :=
    fun acc chunk =>
      match acc with
      | none => none
      | some regras =>
        let item := pyStrip chunk
        if item == "" then some regras
        else
          let partes := (pySplitChar '|' item).map pyStrip
          match partes with
          | [frequencia, diasStr, janela, motivo] =>
            if janela.data.contains '-' then
              match pySplitChar '-' janela with
              | inicioStr :: resto =>
                match parseDiasSemana diasStr, parseHora inicioStr,
                    parseHora (String.intercalate "-" resto) with
                | some dias, some inicio, some fim =>
                  some (regras ++
                    [⟨frequencia, dias, inicio, fim,
                      if motivo == "" then "bloqueio_auditoria_automatica" else motivo⟩])
                | _, _, _ => none
              | [] => none
            else some regras
          | _ => some regras
  chunks.foldl passo (some [])

/-- The `veiculacao.fonte or "zara_log"` expression in
`_auditoria_automatica_bloqueada`: `None` and `""` fall back to the default. -/
def fonteEfetiva (v : Veiculacao) : String :=
  match v.fonte with
  | none => "zara_log"
  | some s => if s == "" then "zara_log" else s

/-- Scan of `_auditoria_automatica_bloqueada`: first rule whose frequency
equals the event frequency, whose day set contains the ISO weekday and whose
half-open time window contains the event time. -/
def primeiraRegraAtingida (regras : List RegraBloqueio) (freq : String)
    (diaIso horario : Nat) : Option String :=
  match regras with
  | [] => none
  | regra :: resto =>
    if regra.frequencia == freq && regra.dias.contains diaIso &&
        regra.inicio ≤ horario && horario < regra.fim then
      some regra.motivo
    else
      primeiraRegraAtingida resto freq diaIso horario

/-- The service helper `_auditoria_automatica_bloqueada`: exemption reason for
automatically-sourced (`zara_log`) events with a frequency, `none` otherwise. -/
def auditoriaAutomaticaBloqueada (env : Env) (v : Veiculacao) : Option String :=
  if !(fonteEfetiva v == "zara_log") then none
  else if !strTruthy v.frequencia then none
  else if env.regras.isEmpty then none
  else
    primeiraRegraAtingida env.regras ((v.frequencia).getD "")
      v.data_hora.isoweekday v.data_hora.segundos

/-- The ORM relationship `contrato.itens`: rows of `contrato_itens` with this
contract's id, in list (insertion) order. -/
def itensDoContrato (db : DB) (contratoId : Nat) : List ContratoItem :=
  db.itens.filter (fun i => i.contrato_id == contratoId)

/-- The `next((i for i in itens if i.tipo_programa == tipo_programa), None)`
lookup of `resolver_item_contrato_para_veiculacao`, guarded by the truthiness
of `tipo_programa`. -/
def porTipoItem (db : DB) (contrato : Contrato) (tipoPrograma : Option String) :
    Option ContratoItem :=
  if strTruthy tipoPrograma then
    (itensDoContrato db contrato.id).find?
      (fun i => i.tipo_programa == tipoPrograma.getD "")
  else none

/-- The service function `resolver_item_contrato_para_veiculacao`:
exact `tipo_programa` match first, then the single item, then the configured
fallback (default `"first"`: first item). -/
def resolverItemContratoParaVeiculacao (env : Env) (db : DB) (contrato : Contrato)
    (tipoPrograma : Option String) : Option ContratoItem :=
  if (itensDoContrato db contrato.id).isEmpty then none
  else
    match porTipoItem db contrato tipoPrograma with
    | some item => some item
    | none =>
      if (itensDoContrato db contrato.id).length == 1 then
        (itensDoContrato db contrato.id).head?
      else if pyStripLower env.fallbackStrategy == "first" then
        (itensDoContrato db contrato.id).head?
      else none

/-- The service function `buscar_item_contabilizado`: resolve the contract the
event is linked to and ask `resolver_item_contrato_para_veiculacao`. -/
def buscarItemContabilizado (env : Env) (db : DB) (v : Veiculacao) :
    Option ContratoItem :=
  if !natTruthy v.contrato_id then none
  else
    match db.contratos.find? (fun c => sqlEqNat c.id v.contrato_id) with
    | none => none
    | some contrato => resolverItemContratoParaVeiculacao env db contrato v.tipo_programa

/-- The service function `buscar_meta_contabilizada`: first active per-file
quota row for the event's linked contract and audio file. -/
def buscarMetaContabilizada (db : DB) (v : Veiculacao) : Option ContratoArquivoMeta :=
  if !natTruthy v.contrato_id then none
  else
    db.metas.find? (fun m =>
      sqlEqNat m.contrato_id v.contrato_id &&
      sqlEqNat m.arquivo_audio_id v.arquivo_audio_id &&
      m.ativo)

/-- The ORM relationship `veiculacao.arquivo_audio`: row of `arquivos_audio`
with the event's foreign key, `None` when the key is `NULL` or dangling. -/
def arquivoDe (db : DB) (v : Veiculacao) : Option ArquivoAudio :=
  match v.arquivo_audio_id with
  | none => none
  | some a => db.arquivos.find? (fun arq => arq.id == a)

/-- The contract query of `processar_veiculacoes_periodo`: same client as the
resolved file, active, validity covers the event date, and (only when the
event carries a truthy frequency) frequency equal, `"ambas"` or `NULL`. -/
def contratoElegivel (arquivo : ArquivoAudio) (v : Veiculacao) (c : Contrato) : Bool :=
  c.cliente_id == arquivo.cliente_id &&
  c.status_contrato == "ativo" &&
  c.data_inicio ≤ v.data_hora.dia &&
  (match c.data_fim with
   | none => true
   | some f => v.data_hora.dia ≤ f) &&
  (if strTruthy v.frequencia then
    c.frequencia == v.frequencia || c.frequencia == some "ambas" || c.frequencia == none
  else true)

/-- The per-file quota query in the crediting branch of
`processar_veiculacoes_periodo`. -/
def metaParaCredito (contrato : Contrato) (v : Veiculacao) (m : ContratoArquivoMeta) : Bool :=
  m.contrato_id == contrato.id &&
  sqlEqNat m.arquivo_audio_id v.arquivo_audio_id &&
  m.ativo

/-- Row update `meta.quantidade_executada += 1` on the row with this id. -/
def incExecMeta (metaId : Nat) (m : ContratoArquivoMeta) : ContratoArquivoMeta :=
  if m.id == metaId then { m with quantidade_executada := m.quantidade_executada + 1 }
  else m

/-- Row update `meta.quantidade_executada -= 1` on the row with this id. -/
def decExecMeta (metaId : Nat) (m : ContratoArquivoMeta) : ContratoArquivoMeta :=
  if m.id == metaId then { m with quantidade_executada := m.quantidade_executada - 1 }
  else m

/-- Row update `item.quantidade_executada += 1` on the row with this id. -/
def incExecItem (itemId : Nat) (i : ContratoItem) : ContratoItem :=
  if i.id == itemId then { i with quantidade_executada := i.quantidade_executada + 1 }
  else i

/-- Row update `item.quantidade_executada -= 1` on the row with this id. -/
def decExecItem (itemId : Nat) (i : ContratoItem) : ContratoItem :=
  if i.id == itemId then { i with quantidade_executada := i.quantidade_executada - 1 }
  else i

/-- ORM mutation `meta.quantidade_executada += 1` on the row with this id. -/
def incMeta (db : DB) (metaId : Nat) : DB :=
  { db with metas := db.metas.map (incExecMeta metaId) }

/-- ORM mutation `meta.quantidade_executada -= 1` on the row with this id. -/
def decMeta (db : DB) (metaId : Nat) : DB :=
  { db with metas := db.metas.map (decExecMeta metaId) }

/-- ORM mutation `item.quantidade_executada += 1` on the row with this id. -/
def incItem (db : DB) (itemId : Nat) : DB :=
  { db with itens := db.itens.map (incExecItem itemId) }

/-- ORM mutation `item.quantidade_executada -= 1` on the row with this id. -/
def decItem (db : DB) (itemId : Nat) : DB :=
  { db with itens := db.itens.map (decExecItem itemId) }

/-- ORM mutation of the event row with this id. -/
def setVeiculacao (db : DB) (vid : Nat) (f : Veiculacao → Veiculacao) : DB :=
  { db with veiculacoes := db.veiculacoes.map (fun w => if w.id == vid then f w else w) }

/-- The `else` branch of the force-reprocessing reversal: decrement the
previously credited contract item when it is strictly positive. -/
def reverterViaItem (env : Env) (db : DB) (v : Veiculacao) : DB :=
  match buscarItemContabilizado env db v with
  | some item =>
    if item.quantidade_executada > 0 then decItem db item.id else db
  | none => db

/-- The force-reprocessing reversal step of `processar_veiculacoes_periodo`
(lines 192-199): decrement the previously credited per-file quota when it is
strictly positive, otherwise fall back to the previously credited contract
item. -/
def reverterCreditoAnterior (env : Env) (db : DB) (v : Veiculacao) : DB :=
  match buscarMetaContabilizada db v with
  | some meta =>
    if meta.quantidade_executada > 0 then decMeta db meta.id
    else reverterViaItem env db v
  | none => reverterViaItem env db v

/-- The event mutation of the crediting branch: `processado = True`,
`contabilizada = True`, `contrato_id = contrato.id`. -/
def marcaContabilizada (contratoId : Nat) (w : Veiculacao) : Veiculacao :=
  { w with processado := true, contabilizada := true, contrato_id := some contratoId }

/-- The event mutation of the non-crediting branches: `processado = True`,
`contabilizada = False`, with the given contract link. -/
def marcaNaoContabilizada (contratoId : Option Nat) (w : Veiculacao) : Veiculacao :=
  { w with processado := true, contabilizada := false, contrato_id := contratoId }

/-- The part of the loop body of `processar_veiculacoes_periodo` after the
force-reversal block (lines 201-266): resolve the audio file (a miss counts
as an error), resolve the owning contract, apply the audit exemption, resolve
and credit the counter, and mark the event. -/
def creditarVeiculacao (env : Env) (db : DB) (v : Veiculacao) : DB × Bool :=
  match arquivoDe db v with
  | none => (db, false)
  | some arquivo =>
    match db.contratos.find? (contratoElegivel arquivo v) with
    | none =>
      (setVeiculacao db v.id (marcaNaoContabilizada none), true)
    | some contrato =>
      match auditoriaAutomaticaBloqueada env v with
      | some _ =>
        (setVeiculacao db v.id (marcaNaoContabilizada (some contrato.id)), true)
      | none =>
        match db.metas.find? (metaParaCredito contrato v) with
        | some meta =>
          (setVeiculacao (incMeta db meta.id) v.id (marcaContabilizada contrato.id), true)
        | none =>
          match resolverItemContratoParaVeiculacao env db contrato v.tipo_programa with
          | some item =>
            (setVeiculacao (incItem db item.id) v.id (marcaContabilizada contrato.id), true)
          | none =>
            (setVeiculacao db v.id (marcaNaoContabilizada (some contrato.id)), true)

/-- The body of the `for veiculacao in veiculacoes` loop of
`processar_veiculacoes_periodo`.  Returns the new database state and `true`
when the event counted as `processadas`, `false` when it counted as `erros`
(unresolved audio file; per-event exceptions have no other source in this
model).  `v` is the event row as selected before the loop; no earlier
iteration mutates it because each iteration only rewrites its own row. -/
def processarUmaVeiculacao (env : Env) (force : Bool) (db : DB) (v : Veiculacao) :
    DB × Bool :=
  let db :=
    if force && v.processado && v.contabilizada then reverterCreditoAnterior env db v
    else db
  creditarVeiculacao env db v

/-- Selection filter of `processar_veiculacoes_periodo`: `data_hora` between
start of `dataInicio` and end of `dataFim`, and unprocessed unless forced. -/
def veiculacaoNoPeriodo (dataInicio dataFim : Nat) (v : Veiculacao) : Bool :=
  dataInicio ≤ v.data_hora.dia && v.data_hora.dia ≤ dataFim

/-- Summary counts returned by `processar_veiculacoes_periodo`. -/
structure ResultadoProcessamento where
  processadas : Nat
  erros : Nat
  total : Nat
  deriving DecidableEq, Repr

/-- Loop of `processar_veiculacoes_periodo` over the selected events. -/
def processarSelecionadas (env : Env) (force : Bool) :
    DB × Nat × Nat → List Veiculacao → DB × Nat × Nat
  | acc, [] => acc
  | (db, processadas, erros), v :: resto =>
    match processarUmaVeiculacao env force db v with
    | (db2, true) => processarSelecionadas env force (db2, processadas + 1, erros) resto
    | (db2, false) => processarSelecionadas env force (db2, processadas, erros + 1) resto

/-- The service function `processar_veiculacoes_periodo`: select events in the
period (pending only unless `force`), process each in order, commit all
mutations together (the commit is the identity on the explicit state). -/
def processarVeiculacoesPeriodo (env : Env) (db : DB) (dataInicio dataFim : Nat)
    (force : Bool) : DB × ResultadoProcessamento :=
  let selecionadas := db.veiculacoes.filter (fun v =>
    veiculacaoNoPeriodo dataInicio dataFim v && (force || !v.processado))
  if selecionadas.isEmpty then (db, ⟨0, 0, 0⟩)
  else
    match processarSelecionadas env force (db, 0, 0) selecionadas with
    | (db2, processadas, erros) => (db2, ⟨processadas, erros, selecionadas.length⟩)

/-- Payload accepted by `schemas.VeiculacaoCreate`: `arquivo_audio_id` is a
required field (the schema predates migration 0011 and has no
`nome_arquivo_raw`), `fonte` defaults to `"zara_log"`. -/
structure VeiculacaoCreate where
  arquivo_audio_id : Nat
  contrato_id : Option Nat := none
  data_hora : DataHora
  frequencia : Option String := none
  tipo_programa : Option String := none
  fonte : String := "zara_log"
  deriving DecidableEq, Repr

/-- Outcome of the `POST /veiculacoes/` endpoint. -/
inductive CriarResultado where
  | notFound
  | integrityError
  | created (v : Veiculacao)
  deriving DecidableEq, Repr

/-- Autoincrement primary key for a new `veiculacoes` row. -/
def nextVeiculacaoId (db : DB) : Nat :=
  (db.veiculacoes.map Veiculacao.id).foldl max 0 + 1

/-- The unique index `uq_veiculacoes_evento` from migration 0003 on
`(arquivo_audio_id, data_hora, IFNULL(frequencia, ''))`.  Rows with a `NULL`
`arquivo_audio_id` never conflict (SQL treats distinct `NULL`s as distinct in
a unique index). -/
def conflitoIndiceUnico (w : Veiculacao) (arquivoId : Option Nat) (dh : DataHora)
    (freq : Option String) : Bool :=
  (match w.arquivo_audio_id, arquivoId with
   | some x, some y => x == y
   | _, _ => false) &&
  w.data_hora == dh &&
  (w.frequencia.getD "") == (freq.getD "")

/-- The router endpoint `criar_veiculacao` (`POST /veiculacoes/`): 404 when
the audio file does not exist, otherwise insert unconditionally; the commit
raises `IntegrityError` (HTTP 500) when the migrated database's unique event
index is violated.  Column defaults: `processado = False`,
`contabilizada = True`. -/
def criarVeiculacao (db : DB) (payload : VeiculacaoCreate) : DB × CriarResultado :=
  match db.arquivos.find? (fun a => a.id == payload.arquivo_audio_id) with
  | none => (db, CriarResultado.notFound)
  | some _ =>
    if db.veiculacoes.any (fun w =>
        conflitoIndiceUnico w (some payload.arquivo_audio_id) payload.data_hora
          payload.frequencia) then
      (db, CriarResultado.integrityError)
    else
      let novo : Veiculacao :=
        { id := nextVeiculacaoId db
          arquivo_audio_id := some payload.arquivo_audio_id
          nome_arquivo_raw := none
          contrato_id := payload.contrato_id
          data_hora := payload.data_hora
          frequencia := payload.frequencia
          tipo_programa := payload.tipo_programa
          fonte := some payload.fonte
          processado := false
          contabilizada := true
          motivo_nao_contabilizada := none }
      ({ db with veiculacoes := db.veiculacoes ++ [novo] }, CriarResultado.created novo)

/-- Outcome of the `DELETE /veiculacoes/{id}` endpoint: 404, or deleted with
the flag saying whether the warning suffix about an already-processed event
was appended to the message. -/
inductive DeletarResultado where
  | notFound
  | deleted (avisoProcessada : Bool)
  deriving DecidableEq, Repr

/-- The router endpoint `deletar_veiculacao` (`DELETE /veiculacoes/{id}`):
look the event up, delete its row, and append a warning to the message when
it was processed.  No other table is touched. -/
def deletarVeiculacao (db : DB) (vid : Nat) : DB × DeletarResultado :=
  match db.veiculacoes.find? (fun w => w.id == vid) with
  | none => (db, DeletarResultado.notFound)
  | some v =>
    ({ db with veiculacoes := db.veiculacoes.eraseP (fun w => w.id == vid) },
     DeletarResultado.deleted v.processado)

/-- Monitor configuration (`log_monitor.monitor.Config`), the fields the
parser and client read. -/
structure MonitorConfig where
  chamadasBasePath : String
  deriving DecidableEq, Repr

/-- Decomposition table for `unicodedata.normalize("NFKD", ...)` followed by
dropping combining marks, restricted to the accented Latin-1 letters that a
cp1252-decoded Zara log can contain; every other character maps to itself. -/
def removerAcento (c : Char) : Char :=
  if c == 'Á' || c == 'À' || c == 'Â' || c == 'Ã' || c == 'Ä' then 'A'
  else if c == 'á' || c == 'à' || c == 'â' || c == 'ã' || c == 'ä' then 'a'
  else if c == 'É' || c == 'È' || c == 'Ê' || c == 'Ë' then 'E'
  else if c == 'é' || c == 'è' || c == 'ê' || c == 'ë' then 'e'
  else if c == 'Í' || c == 'Ì' || c == 'Î' || c == 'Ï' then 'I'
  else if c == 'í' || c == 'ì' || c == 'î' || c == 'ï' then 'i'
  else if c == 'Ó' || c == 'Ò' || c == 'Ô' || c == 'Õ' || c == 'Ö' then 'O'
  else if c == 'ó' || c == 'ò' || c == 'ô' || c == 'õ' || c == 'ö' then 'o'
  else if c == 'Ú' || c == 'Ù' || c == 'Û' || c == 'Ü' then 'U'
  else if c == 'ú' || c == 'ù' || c == 'û' || c == 'ü' then 'u'
  else if c == 'Ç' then 'C'
  else if c == 'ç' then 'c'
  else if c == 'Ñ' then 'N'
  else if c == 'ñ' then 'n'
  else c

/-- The parser helper `_normalizar_texto`: strip diacritics, lowercase, strip
surrounding whitespace (`.lower()` modelled on ASCII, sufficient after the
diacritics are gone). -/
def normalizarTexto (s : String) : String :=
  pyStrip (String.mk (s.data.map (fun c => (removerAcento c).toLower)))

/-- The parser helper `_normalizar_path`: forward slashes to backslashes,
strip, lowercase. -/
def normalizarPath (s : String) : String :=
  pyLower (pyStrip (String.mk (s.data.map (fun c => if c == '/' then '\\' else c))))

/-- Python `re.split(r"\t+", s)`: split on runs of tab characters, keeping an
empty token for a leading or trailing run.  The boolean flag records whether
the previous character belonged to a tab run. -/
def splitTabRunsAux : List Char → List Char → Bool → List String
  | [], acc, _ => [String.mk acc.reverse]
  | c :: resto, acc, emRun =>
    if c == '\t' then
      if emRun then splitTabRunsAux resto [] true
      else String.mk acc.reverse :: splitTabRunsAux resto [] true
    else
      splitTabRunsAux resto (c :: acc) false

/-- Python `re.split(r"\t+", s)` on a string. -/
def splitTabRuns (s : String) : List String :=
  splitTabRunsAux s.data [] false

/-- The compiled pattern `^\d{2}:\d{2}:\d{2}$` of `ZaraLogParser`. -/
def matchHora (s : String) : Bool :=
  match s.data with
  | [a, b, c, d, e, f, g, h] =>
    a.isDigit && b.isDigit && c == ':' && d.isDigit && e.isDigit && f == ':' &&
    g.isDigit && h.isDigit
  | _ => false

/-- Python `ntpath.basename`: the suffix after the last path separator.
(Drive-relative paths without any separator, such as `C:spot.mp3`, would also
be split at the colon by `ntpath`; no eligible log path has that shape since
eligibility requires the configured directory prefix.) -/
def ntBasename (s : String) : String :=
  String.mk ((s.data.reverse.takeWhile (fun c => !(c == '\\') && !(c == '/'))).reverse)

/-- The parser method `is_propaganda`: the normalized path must start with
the normalized configured prefix, with a trailing backslash ensured. -/
def isPropaganda (cfg : MonitorConfig) (caminhoArquivo : String) : Bool :=
  let caminhoNormalizado := normalizarPath caminhoArquivo
  let baseNormalizada := normalizarPath cfg.chamadasBasePath
  let baseNormalizada :=
    if pyEndsWith baseNormalizada "\\" then baseNormalizada else baseNormalizada ++ "\\"
  pyStartsWith caminhoNormalizado baseNormalizada

/-- An airing candidate produced by the parser (the dict returned by
`parse_line`). -/
structure Propaganda where
  nome_arquivo : String
  data_hora : DataHora
  tipo_programa : Option String
  frequencia : String
  deriving DecidableEq, Repr

/-- Python `int(...)` where digits are already guaranteed by the regex. -/
def pyParseNatD (s : String) : Nat := (pyParseNat s).getD 0

/-- The parser method `ZaraLogParser.parse_line`: skip blank, header and
separator lines, split on tab runs, require at least 5 columns, a strict
`HH:MM:SS` first column, a start-type action tag in the normalized second
column, and an eligible final path; otherwise no candidate. -/
def parseLine (cfg : MonitorConfig) (line : String) (dia : Nat) (frequencia : String) :
    Option Propaganda :=
  let linha := pyStrip line
  if linha == "" || pyStartsWith linha "LOG FILE" || pyStartsWith linha "=" then none
  else
    let colunas := splitTabRuns linha
    if colunas.length < 5 then none
    else
      let horaStr := pyStrip (colunas.getD 0 "")
      let action := normalizarTexto (colunas.getD 1 "")
      let caminhoTocado := pyStrip (colunas.getD (colunas.length - 1) "")
      if !matchHora horaStr then none
      else if !(action == "inicio" || action == "in") then none
      else if !isPropaganda cfg caminhoTocado then none
      else
        let horaParts := pySplitChar ':' horaStr
        let segundos := pyParseNatD (horaParts.getD 0 "") * 3600 +
          pyParseNatD (horaParts.getD 1 "") * 60 + pyParseNatD (horaParts.getD 2 "")
        some { nome_arquivo := ntBasename caminhoTocado
               data_hora := { dia := dia, segundos := segundos }
               tipo_programa := none
               frequencia := frequencia }

/-- One item of the JSON payload the monitor submits: `arquivo_audio_id` when
the basename resolved, else `nome_arquivo_raw`. -/
structure IngestItem where
  arquivo_audio_id : Option Nat
  nome_arquivo_raw : Option String
  data_hora : DataHora
  frequencia : Option String
  tipo_programa : Option String
  fonte : String
  deriving DecidableEq, Repr

/-- The dedupe key of `create_veiculacoes_from_logs`: resolved id when
registered, normalized basename otherwise, plus timestamp and frequency. -/
def ChaveDedupe : Type := (Nat ⊕ String) × DataHora × String

instance : DecidableEq ChaveDedupe := by
  unfold ChaveDedupe
  infer_instance

/-- Process-local monitor caches (`_dedupe_cache` and `_arquivo_id_cache`),
made explicit state. -/
structure MonitorState where
  dedupeCache : List ChaveDedupe
  arquivoCache : List (String × Option Nat)
  deriving DecidableEq

/-- Fresh caches at monitor start-up. -/
def monitorInicial : MonitorState := ⟨[], []⟩

/-- The `APIClient.get_arquivo_by_nome` lookup: first registered audio file
whose stripped lowercased name equals the stripped lowercased query (the
server-side `busca` pre-filter returns a superset of the exact matches which
the client then scans; the at-most-100-rows page limit is not modelled). -/
def resolveArquivoId (db : DB) (nomeArquivo : String) : Option Nat :=
  (db.arquivos.find? (fun a =>
    pyStripLower a.nome_arquivo == pyStripLower nomeArquivo)).map ArquivoAudio.id

/-- The `_arquivo_id_cache` lookup of `create_veiculacoes_from_logs`: answer
from the run-lifetime cache when the normalized basename was seen before,
otherwise resolve through the API and cache the answer (also the `None`
answer for unregistered files). -/
def resolverComCache (db : DB) (st : MonitorState) (nomeArquivo : String) :
    MonitorState × Option Nat :=
  match (st.arquivoCache.find?
      (fun e => e.1 == pyStripLower nomeArquivo)).map Prod.snd with
  | some cached => (st, cached)
  | none =>
    ({ st with arquivoCache :=
        st.arquivoCache ++ [(pyStripLower nomeArquivo, resolveArquivoId db nomeArquivo)] },
     resolveArquivoId db nomeArquivo)

/-- The dedupe key of one candidate: resolved id when registered, normalized
basename otherwise, plus timestamp and frequency. -/
def chaveDedupe (p : Propaganda) (arquivoId : Option Nat) : ChaveDedupe :=
  (match arquivoId with
   | some i => Sum.inl i
   | none => Sum.inr (pyStripLower p.nome_arquivo),
   p.data_hora, p.frequencia)

/-- The payload item built for one new candidate: resolved id when
registered, raw basename otherwise. -/
def montarItem (p : Propaganda) (arquivoId : Option Nat) : IngestItem :=
  { arquivo_audio_id := arquivoId
    nome_arquivo_raw := if arquivoId.isNone then some p.nome_arquivo else none
    data_hora := p.data_hora
    frequencia := some p.frequencia
    tipo_programa := p.tipo_programa
    fonte := "zara_log" }

/-- The payload-building loop of `LogMonitor.create_veiculacoes_from_logs`:
resolve each basename through the run-lifetime cache, skip candidates whose
dedupe key was already seen, and build one item per new candidate, carrying
the resolved id when registered and the raw basename otherwise. -/
def createVeiculacoesPayload (db : DB) :
    MonitorState → List Propaganda → MonitorState × List IngestItem
  | st, [] => (st, [])
  | st, p :: resto =>
    match resolverComCache db st p.nome_arquivo with
    | (st1, arquivoId) =>
      if st1.dedupeCache.contains (chaveDedupe p arquivoId) then
        createVeiculacoesPayload db st1 resto
      else
        match createVeiculacoesPayload db
            { st1 with dedupeCache := st1.dedupeCache ++ [chaveDedupe p arquivoId] }
            resto with
        | (st2, itens) => (st2, montarItem p arquivoId :: itens)

/-- Pydantic validation of one submitted item against
`schemas.VeiculacaoCreate`: `arquivo_audio_id` is required (an unregistered
item is rejected with HTTP 422) and a present frequency must be `102.7` or
`104.7`; the extra `nome_arquivo_raw` key is ignored. -/
def toVeiculacaoCreate (item : IngestItem) : Option VeiculacaoCreate :=
  match item.arquivo_audio_id with
  | none => none
  | some a =>
    match item.frequencia with
    | some f =>
      if f == "102.7" || f == "104.7" then
        some ⟨a, none, item.data_hora, some f, item.tipo_programa, item.fonte⟩
      else none
    | none => some ⟨a, none, item.data_hora, none, item.tipo_programa, item.fonte⟩

/-- The `APIClient.create_veiculacao` call against the router endpoint:
`some created` on HTTP 200/201 with `_created` set from the status code (the
endpoint always answers 201 on success), `none` on any failure status
(422 validation, 404, 500 integrity violation). -/
def apiCreateVeiculacao (db : DB) (item : IngestItem) : DB × Option Bool :=
  match toVeiculacaoCreate item with
  | none => (db, none)
  | some payload =>
    match criarVeiculacao db payload with
    | (db2, CriarResultado.created _) => (db2, some true)
    | (db2, CriarResultado.notFound) => (db2, none)
    | (db2, CriarResultado.integrityError) => (db2, none)

/-- Per-item counts reported by the batch submission paths. -/
structure LoteResultado where
  criadas : Nat
  existentes : Nat
  falhas : Nat
  deriving DecidableEq, Repr

/-- The `APIClient._create_veiculacoes_fallback` loop: one
`create_veiculacao` call per item; `None` responses count as failures,
`_created` responses as created, others as existing. -/
def createVeiculacoesFallback (db : DB) : List IngestItem → DB × LoteResultado
  | [] => (db, ⟨0, 0, 0⟩)
  | item :: resto =>
    match apiCreateVeiculacao db item with
    | (db2, resp) =>
      match createVeiculacoesFallback db2 resto with
      | (db3, r) =>
        match resp with
        | none => (db3, { r with falhas := r.falhas + 1 })
        | some true => (db3, { r with criadas := r.criadas + 1 })
        | some false => (db3, { r with existentes := r.existentes + 1 })

/-- Identity check behind the spec's idempotent create-or-confirm: the stored
event matches the item on resolved-file identity (or, for unresolved items,
on the raw basename with no file link), timestamp and frequency. -/
def mesmaIdentidade (item : IngestItem) (w : Veiculacao) : Bool :=
  w.arquivo_audio_id == item.arquivo_audio_id &&
  (if item.arquivo_audio_id.isNone then w.nome_arquivo_raw == item.nome_arquivo_raw
   else true) &&
  w.data_hora == item.data_hora &&
  w.frequencia == item.frequencia

/-- The stored event a newly ingested item becomes: column defaults
`processado = False`, `contabilizada = True`, no contract link. -/
def novaVeiculacaoDe (db : DB) (item : IngestItem) : Veiculacao :=
  { id := nextVeiculacaoId db
    arquivo_audio_id := item.arquivo_audio_id
    nome_arquivo_raw := item.nome_arquivo_raw
    contrato_id := none
    data_hora := item.data_hora
    frequencia := item.frequencia
    tipo_programa := item.tipo_programa
    fonte := some item.fonte
    processado := false
    contabilizada := true
    motivo_nao_contabilizada := none }

/-- Modelled from the spec: the bulk ingest endpoint
`POST /veiculacoes/ingest/lote` called by `APIClient.create_veiculacoes_batch`
is absent from the checked-out sources (only its caller in
`log_monitor/monitor.py`, its schemas and its tests are present).  Per the
spec it create-or-confirms one airing event per item, idempotent on the
identity key (resolved-file-identity or raw basename, timestamp, frequency),
storing items with an unresolved identity flagged unregistered (no file link,
raw basename kept) instead of dropping or failing them, and reports per-item
created/existing/failed counts. -/
def ingestaoVeiculacoesLote (db : DB) : List IngestItem → DB × LoteResultado
  | [] => (db, ⟨0, 0, 0⟩)
  | item :: resto =>
    if db.veiculacoes.any (mesmaIdentidade item) then
      match ingestaoVeiculacoesLote db resto with
      | (db2, r) => (db2, { r with existentes := r.existentes + 1 })
    else
      match ingestaoVeiculacoesLote
          { db with veiculacoes := db.veiculacoes ++ [novaVeiculacaoDe db item] } resto with
      | (db2, r) => (db2, { r with criadas := r.criadas + 1 })

/-! Concrete states used by witnesses, counterexamples and code-bug
evaluations.  Day 0 of the calendar encoding is a Monday; the scenario date
2026-02-16 is a Monday and is encoded as day 0. -/

/-- The default monitor configuration (`CHAMADAS_BASE_PATH`). -/
def cfgPadrao : MonitorConfig := ⟨"J:\\AZARASTUDIO\\CHAMADAS"⟩

/-- The parsed form of the default `AUTO_AUDIT_BLOCK_WINDOWS` rule
`102.7|1-5|11:00-14:00|obs_video`. -/
def regraPadrao : RegraBloqueio := ⟨"102.7", [1, 2, 3, 4, 5], 39600, 50400, "obs_video"⟩

/-- Default environment: fallback strategy `first`, default exemption rule. -/
def envPadrao : Env := ⟨"first", [regraPadrao]⟩

/-- Automatically-sourced event at 2026-02-16 (Monday, day 0) 11:30 on
frequency 102.7 — the audit-exemption scenario event. -/
def vAutoJanela : Veiculacao :=
  { id := 1, arquivo_audio_id := some 1, nome_arquivo_raw := none, contrato_id := none
    data_hora := ⟨0, 41400⟩, frequencia := some "102.7"
    tipo_programa := some "esporte", fonte := some "zara_log"
    processado := false, contabilizada := true, motivo_nao_contabilizada := none }

/-- The manually-sourced twin of the scenario event. -/
def vManualJanela : Veiculacao := { vAutoJanela with fonte := some "obs_manual" }

/-- Registered audio file of the scenario client. -/
def arqJanela : ArquivoAudio := ⟨1, 1, "obs_video_spot.mp3"⟩

/-- Active 102.7-scoped contract of the scenario client, valid on day 0. -/
def contratoJanela : Contrato := ⟨1, 1, 0, some 6, some "102.7", "ativo"⟩

/-- Single `esporte` item of the scenario contract, zero executions. -/
def itemJanela : ContratoItem := ⟨1, 1, "esporte", 0⟩

/-- State for the audit-exemption scenario: one client file, one active
102.7-scoped contract with one `esporte` item at zero executions, and the
scenario event pending. -/
def dbJanela : DB :=
  { arquivos := [arqJanela]
    contratos := [contratoJanela]
    itens := [itemJanela]
    metas := []
    veiculacoes := [vAutoJanela] }

/-- The otherwise-identical manually-sourced twin of the scenario state. -/
def dbJanelaManual : DB :=
  { dbJanela with veiculacoes := [vManualJanela] }

/-- A pending event of a client who has a registered file but no contract. -/
def vSemContrato : Veiculacao :=
  { vAutoJanela with arquivo_audio_id := some 2, frequencia := none }

/-- State with a registered file and no contracts at all. -/
def dbSemContrato : DB :=
  { arquivos := [⟨2, 7, "sem_contrato.mp3"⟩]
    contratos := []
    itens := []
    metas := []
    veiculacoes := [vSemContrato] }

/-- State for the deletion scenario: an accounted event whose credit sits on
the single contract item (`quantidade_executada = 1`). -/
def dbDelecao : DB :=
  { arquivos := [⟨1, 1, "spot_delete.mp3"⟩]
    contratos := [⟨1, 1, 0, some 6, some "ambas", "ativo"⟩]
    itens := [⟨1, 1, "musical", 1⟩]
    metas := []
    veiculacoes := [{ id := 1, arquivo_audio_id := some 1, nome_arquivo_raw := none
                      contrato_id := some 1, data_hora := ⟨0, 100⟩
                      frequencia := some "102.7", tipo_programa := some "musical"
                      fonte := some "teste", processado := true, contabilizada := true
                      motivo_nao_contabilizada := none }] }

/-- Server state for the duplicate-submission scenario: one registered file,
no events yet. -/
def dbIngestao : DB :=
  { arquivos := [⟨1, 1, "spot_idempotente.mp3"⟩]
    contratos := [], itens := [], metas := [], veiculacoes := [] }

/-- The submission item `(file 1, 2026-01-01T10:00:00, 102.7)` sent twice. -/
def itemDuplicado : IngestItem :=
  ⟨some 1, none, ⟨0, 36000⟩, some "102.7", some "musical", "zara_log"⟩

/-- A parsed candidate whose basename is not registered in `dbIngestao`. -/
def propNaoCadastrada : Propaganda := ⟨"DESCONHECIDO.mp3", ⟨0, 500⟩, none, "102.7"⟩

/-- The submission item the monitor builds for a candidate whose basename did
not resolve: no file link, raw basename kept. -/
def itemNaoCadastrado (p : Propaganda) : IngestItem :=
  { arquivo_audio_id := none
    nome_arquivo_raw := some p.nome_arquivo
    data_hora := p.data_hora
    frequencia := some p.frequencia
    tipo_programa := p.tipo_programa
    fonte := "zara_log" }

/-- An interrupted-action log line that is otherwise well formed. -/
def linhaInterrompida : String :=
  "06:42:47\tInterrompido\tMain\tdefault\tJ:\\AZARASTUDIO\\CHAMADAS\\SPOT_CLIENTE.mp3"

/-- A pending event recorded only with a raw basename (no file link). -/
def vRaw : Veiculacao :=
  { id := 1, arquivo_audio_id := none, nome_arquivo_raw := some "DESCONHECIDO.mp3"
    contrato_id := none, data_hora := ⟨0, 500⟩, frequencia := some "102.7"
    tipo_programa := none, fonte := some "zara_log"
    processado := false, contabilizada := true, motivo_nao_contabilizada := none }

/-- State holding only the unregistered event. -/
def dbRaw : DB :=
  { arquivos := [], contratos := [], itens := [], metas := [], veiculacoes := [vRaw] }

/-- All executed counters (contract items and per-file quotas) are
non-negative. -/
def contadoresNaoNegativos (db : DB) : Prop :=
  (∀ i ∈ db.itens, 0 ≤ i.quantidade_executada) ∧
  (∀ m ∈ db.metas, 0 ≤ m.quantidade_executada)

/-- Primary keys of the counter tables are unique (database invariant). -/
def chavesUnicas (db : DB) : Prop :=
  (db.itens.map ContratoItem.id).Nodup ∧
  (db.metas.map ContratoArquivoMeta.id).Nodup

instance (db : DB) : Decidable (contadoresNaoNegativos db) := by
  unfold contadoresNaoNegativos
  infer_instance

instance (db : DB) : Decidable (chavesUnicas db) := by
  unfold chavesUnicas
  infer_instance

/-! Helper lemmas shared by several claim theorems. -/

theorem find?_map_pres {α : Type} (g : α → α) (p : α → Bool)
    (h : ∀ a, p (g a) = p a) :
    ∀ l : List α, (l.map g).find? p = (l.find? p).map g := by
  intro l
  induction l with
  | nil => rfl
  | cons a t ih =>
    by_cases hp : p a = true
    · simp [List.find?, h, hp]
    · simp only [Bool.not_eq_true] at hp
      simp [List.find?, h, hp, ih]

theorem filter_map_pres {α : Type} (g : α → α) (p : α → Bool)
    (h : ∀ a, p (g a) = p a) :
    ∀ l : List α, (l.map g).filter p = (l.filter p).map g := by
  intro l
  induction l with
  | nil => rfl
  | cons a t ih =>
    by_cases hp : p a = true
    · simp [List.filter, h, hp, ih]
    · simp only [Bool.not_eq_true] at hp
      simp [List.filter, h, hp, ih]

theorem find?_key_nodup {α β : Type} [DecidableEq β] (f : α → β) :
    ∀ (l : List α) (a : α), (l.map f).Nodup → a ∈ l →
      l.find? (fun x => f x == f a) = some a := by
  intro l
  induction l with
  | nil => intro a _ ha; cases ha
  | cons x t ih =>
    intro a hnd ha
    simp only [List.map_cons, List.nodup_cons] at hnd
    rcases List.mem_cons.mp ha with rfl | hat
    · simp [List.find?]
    · have hne : ¬(f x == f a) = true := by
        intro hfx
        exact hnd.1 (by
          rw [beq_iff_eq] at hfx
          rw [hfx]
          exact List.mem_map_of_mem f hat)
      simp only [List.find?, Bool.not_eq_true] at hne ⊢
      rw [hne]
      exact ih a hnd.2 hat

theorem map_eq_self_of {α : Type} (l : List α) (f : α → α)
    (h : ∀ a ∈ l, f a = a) : l.map f = l := by
  induction l with
  | nil => rfl
  | cons a t ih =>
    simp only [List.map_cons, h a (List.mem_cons_self a t)]
    rw [ih (fun b hb => h b (List.mem_cons_of_mem a hb))]

theorem setVeiculacao_arquivos (db : DB) (vid : Nat) (f : Veiculacao → Veiculacao) :
    (setVeiculacao db vid f).arquivos = db.arquivos := rfl

theorem setVeiculacao_contratos (db : DB) (vid : Nat) (f : Veiculacao → Veiculacao) :
    (setVeiculacao db vid f).contratos = db.contratos := rfl

theorem setVeiculacao_itens (db : DB) (vid : Nat) (f : Veiculacao → Veiculacao) :
    (setVeiculacao db vid f).itens = db.itens := rfl

theorem setVeiculacao_metas (db : DB) (vid : Nat) (f : Veiculacao → Veiculacao) :
    (setVeiculacao db vid f).metas = db.metas := rfl

theorem incMeta_outras (db : DB) (mid : Nat) :
    (incMeta db mid).arquivos = db.arquivos ∧ (incMeta db mid).contratos = db.contratos ∧
    (incMeta db mid).itens = db.itens ∧ (incMeta db mid).veiculacoes = db.veiculacoes :=
  ⟨rfl, rfl, rfl, rfl⟩

theorem decMeta_outras (db : DB) (mid : Nat) :
    (decMeta db mid).arquivos = db.arquivos ∧ (decMeta db mid).contratos = db.contratos ∧
    (decMeta db mid).itens = db.itens ∧ (decMeta db mid).veiculacoes = db.veiculacoes :=
  ⟨rfl, rfl, rfl, rfl⟩

theorem incItem_outras (db : DB) (iid : Nat) :
    (incItem db iid).arquivos = db.arquivos ∧ (incItem db iid).contratos = db.contratos ∧
    (incItem db iid).metas = db.metas ∧ (incItem db iid).veiculacoes = db.veiculacoes :=
  ⟨rfl, rfl, rfl, rfl⟩

theorem decItem_outras (db : DB) (iid : Nat) :
    (decItem db iid).arquivos = db.arquivos ∧ (decItem db iid).contratos = db.contratos ∧
    (decItem db iid).metas = db.metas ∧ (decItem db iid).veiculacoes = db.veiculacoes :=
  ⟨rfl, rfl, rfl, rfl⟩

theorem reverter_preserva (env : Env) (db : DB) (v : Veiculacao) :
    (reverterCreditoAnterior env db v).arquivos = db.arquivos ∧
    (reverterCreditoAnterior env db v).contratos = db.contratos ∧
    (reverterCreditoAnterior env db v).veiculacoes = db.veiculacoes := by
  refine ⟨?_, ?_, ?_⟩ <;>
    · simp only [reverterCreditoAnterior, reverterViaItem]
      repeat' split
      all_goals rfl

theorem creditar_preserva (env : Env) (db : DB) (v : Veiculacao) :
    (creditarVeiculacao env db v).1.arquivos = db.arquivos ∧
    (creditarVeiculacao env db v).1.contratos = db.contratos := by
  refine ⟨?_, ?_⟩ <;>
    · simp only [creditarVeiculacao]
      repeat' split
      all_goals rfl

theorem passo_preserva (env : Env) (force : Bool) (db : DB) (v : Veiculacao) :
    (processarUmaVeiculacao env force db v).1.arquivos = db.arquivos ∧
    (processarUmaVeiculacao env force db v).1.contratos = db.contratos := by
  unfold processarUmaVeiculacao
  split
  · constructor
    · rw [(creditar_preserva env _ v).1, (reverter_preserva env db v).1]
    · rw [(creditar_preserva env _ v).2, (reverter_preserva env db v).2.1]
  · exact creditar_preserva env db v

theorem passo_pendente (env : Env) (force : Bool) (db : DB) (v : Veiculacao)
    (hp : v.processado = false) :
    processarUmaVeiculacao env force db v = creditarVeiculacao env db v := by
  unfold processarUmaVeiculacao
  simp [hp]

theorem porTipo_mem (db : DB) (contrato : Contrato) (tipo : Option String)
    (item : ContratoItem) (h : porTipoItem db contrato tipo = some item) :
    item ∈ itensDoContrato db contrato.id := by
  unfold porTipoItem at h
  split at h
  · exact List.mem_of_find?_eq_some h
  · cases h

theorem resolver_mem (env : Env) (db : DB) (contrato : Contrato)
    (tipo : Option String) (item : ContratoItem)
    (h : resolverItemContratoParaVeiculacao env db contrato tipo = some item) :
    item ∈ itensDoContrato db contrato.id := by
  unfold resolverItemContratoParaVeiculacao at h
  split at h
  · cases h
  · split at h
    · exact porTipo_mem db contrato tipo item (by
        rename_i heq
        rw [heq, h])
    · split at h
      · exact List.mem_of_mem_head? h
      · split at h
        · exact List.mem_of_mem_head? h
        · cases h

theorem buscarMeta_mem (db : DB) (v : Veiculacao) (meta : ContratoArquivoMeta)
    (h : buscarMetaContabilizada db v = some meta) : meta ∈ db.metas := by
  unfold buscarMetaContabilizada at h
  split at h
  · cases h
  · exact List.mem_of_find?_eq_some h

theorem buscarItem_mem (env : Env) (db : DB) (v : Veiculacao) (item : ContratoItem)
    (h : buscarItemContabilizado env db v = some item) : item ∈ db.itens := by
  unfold buscarItemContabilizado at h
  split at h
  · cases h
  · split at h
    · cases h
    · exact (List.mem_filter.mp (resolver_mem _ _ _ _ _ h)).1

theorem incExecItem_id (iid : Nat) (i : ContratoItem) : (incExecItem iid i).id = i.id := by
  unfold incExecItem
  split <;> rfl

theorem decExecItem_id (iid : Nat) (i : ContratoItem) : (decExecItem iid i).id = i.id := by
  unfold decExecItem
  split <;> rfl

theorem incExecMeta_id (mid : Nat) (m : ContratoArquivoMeta) :
    (incExecMeta mid m).id = m.id := by
  unfold incExecMeta
  split <;> rfl

theorem decExecMeta_id (mid : Nat) (m : ContratoArquivoMeta) :
    (decExecMeta mid m).id = m.id := by
  unfold decExecMeta
  split <;> rfl

theorem incItem_ids (db : DB) (iid : Nat) :
    (incItem db iid).itens.map ContratoItem.id = db.itens.map ContratoItem.id := by
  unfold incItem
  rw [List.map_map]
  apply List.map_congr_left
  intro i _
  simp only [Function.comp_apply]
  exact incExecItem_id iid i

theorem decItem_ids (db : DB) (iid : Nat) :
    (decItem db iid).itens.map ContratoItem.id = db.itens.map ContratoItem.id := by
  unfold decItem
  rw [List.map_map]
  apply List.map_congr_left
  intro i _
  simp only [Function.comp_apply]
  exact decExecItem_id iid i

theorem incMeta_ids (db : DB) (mid : Nat) :
    (incMeta db mid).metas.map ContratoArquivoMeta.id =
      db.metas.map ContratoArquivoMeta.id := by
  unfold incMeta
  rw [List.map_map]
  apply List.map_congr_left
  intro m _
  simp only [Function.comp_apply]
  exact incExecMeta_id mid m

theorem decMeta_ids (db : DB) (mid : Nat) :
    (decMeta db mid).metas.map ContratoArquivoMeta.id =
      db.metas.map ContratoArquivoMeta.id := by
  unfold decMeta
  rw [List.map_map]
  apply List.map_congr_left
  intro m _
  simp only [Function.comp_apply]
  exact decExecMeta_id mid m

theorem decMeta_nonneg (db : DB) (meta : ContratoArquivoMeta)
    (hk : (db.metas.map ContratoArquivoMeta.id).Nodup)
    (hm : meta ∈ db.metas) (hpos : 0 < meta.quantidade_executada)
    (hn : ∀ m ∈ db.metas, 0 ≤ m.quantidade_executada) :
    ∀ m ∈ (decMeta db meta.id).metas, 0 ≤ m.quantidade_executada := by
  intro m2 hm2
  unfold decMeta at hm2
  obtain ⟨m, hmem, rfl⟩ := List.mem_map.mp hm2
  unfold decExecMeta
  by_cases h : (m.id == meta.id) = true
  · have he : m = meta :=
      List.inj_on_of_nodup_map hk hmem hm (by simpa using h)
    subst he
    rw [if_pos h]
    show 0 ≤ m.quantidade_executada - 1
    omega
  · rw [if_neg h]
    exact hn m hmem

theorem decItem_nonneg (db : DB) (item : ContratoItem)
    (hk : (db.itens.map ContratoItem.id).Nodup)
    (hm : item ∈ db.itens) (hpos : 0 < item.quantidade_executada)
    (hn : ∀ i ∈ db.itens, 0 ≤ i.quantidade_executada) :
    ∀ i ∈ (decItem db item.id).itens, 0 ≤ i.quantidade_executada := by
  intro i2 hi2
  unfold decItem at hi2
  obtain ⟨i, hmem, rfl⟩ := List.mem_map.mp hi2
  unfold decExecItem
  by_cases h : (i.id == item.id) = true
  · have he : i = item :=
      List.inj_on_of_nodup_map hk hmem hm (by simpa using h)
    subst he
    rw [if_pos h]
    show 0 ≤ i.quantidade_executada - 1
    omega
  · rw [if_neg h]
    exact hn i hmem

theorem incItem_nonneg (db : DB) (iid : Nat)
    (hn : ∀ i ∈ db.itens, 0 ≤ i.quantidade_executada) :
    ∀ i ∈ (incItem db iid).itens, 0 ≤ i.quantidade_executada := by
  intro i2 hi2
  unfold incItem at hi2
  obtain ⟨i, hmem, rfl⟩ := List.mem_map.mp hi2
  unfold incExecItem
  by_cases h : (i.id == iid) = true
  · rw [if_pos h]
    show 0 ≤ i.quantidade_executada + 1
    have := hn i hmem
    omega
  · rw [if_neg h]
    exact hn i hmem

theorem incMeta_nonneg (db : DB) (mid : Nat)
    (hn : ∀ m ∈ db.metas, 0 ≤ m.quantidade_executada) :
    ∀ m ∈ (incMeta db mid).metas, 0 ≤ m.quantidade_executada := by
  intro m2 hm2
  unfold incMeta at hm2
  obtain ⟨m, hmem, rfl⟩ := List.mem_map.mp hm2
  unfold incExecMeta
  by_cases h : (m.id == mid) = true
  · rw [if_pos h]
    show 0 ≤ m.quantidade_executada + 1
    have := hn m hmem
    omega
  · rw [if_neg h]
    exact hn m hmem

theorem reverterViaItem_invariantes (env : Env) (db : DB) (v : Veiculacao)
    (hk : chavesUnicas db) (hn : contadoresNaoNegativos db) :
    chavesUnicas (reverterViaItem env db v) ∧
    contadoresNaoNegativos (reverterViaItem env db v) := by
  unfold reverterViaItem
  split
  · rename_i item hieq
    split
    · rename_i hpos
      refine ⟨⟨?_, hk.2⟩, ?_, hn.2⟩
      · rw [decItem_ids]
        exact hk.1
      · exact decItem_nonneg db item hk.1 (buscarItem_mem env db v item hieq) hpos hn.1
    · exact ⟨hk, hn⟩
  · exact ⟨hk, hn⟩

theorem reverter_invariantes (env : Env) (db : DB) (v : Veiculacao)
    (hk : chavesUnicas db) (hn : contadoresNaoNegativos db) :
    chavesUnicas (reverterCreditoAnterior env db v) ∧
    contadoresNaoNegativos (reverterCreditoAnterior env db v) := by
  unfold reverterCreditoAnterior
  split
  · rename_i meta hmeq
    split
    · rename_i hpos
      refine ⟨⟨hk.1, ?_⟩, hn.1, ?_⟩
      · rw [decMeta_ids]
        exact hk.2
      · exact decMeta_nonneg db meta hk.2 (buscarMeta_mem db v meta hmeq) hpos hn.2
    · exact reverterViaItem_invariantes env db v hk hn
  · exact reverterViaItem_invariantes env db v hk hn

theorem creditar_invariantes (env : Env) (db : DB) (v : Veiculacao)
    (hk : chavesUnicas db) (hn : contadoresNaoNegativos db) :
    chavesUnicas (creditarVeiculacao env db v).1 ∧
    contadoresNaoNegativos (creditarVeiculacao env db v).1 := by
  unfold creditarVeiculacao
  split
  · exact ⟨hk, hn⟩
  · split
    · exact ⟨hk, hn⟩
    · split
      · exact ⟨hk, hn⟩
      · split
        · rename_i meta _
          refine ⟨⟨hk.1, ?_⟩, hn.1, ?_⟩
          · show ((incMeta db meta.id).metas.map ContratoArquivoMeta.id).Nodup
            rw [incMeta_ids]
            exact hk.2
          · exact incMeta_nonneg db meta.id hn.2
        · split
          · rename_i item _
            refine ⟨⟨?_, hk.2⟩, ?_, hn.2⟩
            · show ((incItem db item.id).itens.map ContratoItem.id).Nodup
              rw [incItem_ids]
              exact hk.1
            · exact incItem_nonneg db item.id hn.1
          · exact ⟨hk, hn⟩

theorem passo_invariantes (env : Env) (force : Bool) (db : DB) (v : Veiculacao)
    (hk : chavesUnicas db) (hn : contadoresNaoNegativos db) :
    chavesUnicas (processarUmaVeiculacao env force db v).1 ∧
    contadoresNaoNegativos (processarUmaVeiculacao env force db v).1 := by
  unfold processarUmaVeiculacao
  split
  · have hr := reverter_invariantes env db v hk hn
    exact creditar_invariantes env _ v hr.1 hr.2
  · exact creditar_invariantes env db v hk hn

theorem selecionadas_invariantes (env : Env) (force : Bool) :
    ∀ (l : List Veiculacao) (db : DB) (p e : Nat),
      chavesUnicas db → contadoresNaoNegativos db →
      chavesUnicas (processarSelecionadas env force (db, p, e) l).1 ∧
      contadoresNaoNegativos (processarSelecionadas env force (db, p, e) l).1 := by
  intro l
  induction l with
  | nil => intro db p e hk hn; exact ⟨hk, hn⟩
  | cons v resto ih =>
    intro db p e hk hn
    have hstep := passo_invariantes env force db v hk hn
    unfold processarSelecionadas
    split
    · rename_i db2 heq
      have h2 : db2 = (processarUmaVeiculacao env force db v).1 := by
        rw [heq]
      rw [h2]
      exact ih _ _ _ hstep.1 hstep.2
    · rename_i db2 heq
      have h2 : db2 = (processarUmaVeiculacao env force db v).1 := by
        rw [heq]
      rw [h2]
      exact ih _ _ _ hstep.1 hstep.2

theorem arquivoDe_congr (db2 db : DB) (v : Veiculacao)
    (h : db2.arquivos = db.arquivos) : arquivoDe db2 v = arquivoDe db v := by
  unfold arquivoDe
  rw [h]

theorem creditar_sem_arquivo (env : Env) (db : DB) (v : Veiculacao)
    (h : arquivoDe db v = none) : creditarVeiculacao env db v = (db, false) := by
  unfold creditarVeiculacao
  rw [h]

theorem creditar_com_arquivo (env : Env) (db : DB) (v : Veiculacao)
    (arq : ArquivoAudio) (h : arquivoDe db v = some arq) :
    (creditarVeiculacao env db v).2 = true := by
  unfold creditarVeiculacao
  rw [h]
  repeat' split
  all_goals first
    | rfl
    | (exfalso; simp_all)

theorem passo_sem_arquivo (env : Env) (force : Bool) (db : DB) (v : Veiculacao)
    (h : arquivoDe db v = none) :
    (processarUmaVeiculacao env force db v).2 = false ∧
    (processarUmaVeiculacao env force db v).1.veiculacoes = db.veiculacoes := by
  unfold processarUmaVeiculacao
  split
  · have h2 : arquivoDe (reverterCreditoAnterior env db v) v = none := by
      rw [arquivoDe_congr _ db v (reverter_preserva env db v).1]
      exact h
    rw [creditar_sem_arquivo env _ v h2]
    exact ⟨rfl, (reverter_preserva env db v).2.2⟩
  · rw [creditar_sem_arquivo env db v h]
    exact ⟨rfl, rfl⟩

theorem passo_com_arquivo (env : Env) (force : Bool) (db : DB) (v : Veiculacao)
    (arq : ArquivoAudio) (h : arquivoDe db v = some arq) :
    (processarUmaVeiculacao env force db v).2 = true := by
  unfold processarUmaVeiculacao
  split
  · have h2 : arquivoDe (reverterCreditoAnterior env db v) v = some arq := by
      rw [arquivoDe_congr _ db v (reverter_preserva env db v).1]
      exact h
    exact creditar_com_arquivo env _ v arq h2
  · exact creditar_com_arquivo env db v arq h

theorem setVeiculacao_mem (db : DB) (vid : Nat) (f : Veiculacao → Veiculacao)
    (v : Veiculacao) (hne : (v.id == vid) = false) (hv : v ∈ db.veiculacoes) :
    v ∈ (setVeiculacao db vid f).veiculacoes := by
  unfold setVeiculacao
  have hmm := List.mem_map_of_mem (fun w => if w.id == vid then f w else w) hv
  simpa [hne] using hmm

theorem creditar_mantem_outras (env : Env) (db : DB) (v2 v : Veiculacao)
    (hne : (v.id == v2.id) = false) (hv : v ∈ db.veiculacoes) :
    v ∈ (creditarVeiculacao env db v2).1.veiculacoes := by
  unfold creditarVeiculacao
  repeat' split
  all_goals first
    | exact hv
    | exact setVeiculacao_mem _ _ _ v hne hv

theorem passo_mantem_outras (env : Env) (force : Bool) (db : DB) (v2 v : Veiculacao)
    (hne : (v.id == v2.id) = false) (hv : v ∈ db.veiculacoes) :
    v ∈ (processarUmaVeiculacao env force db v2).1.veiculacoes := by
  unfold processarUmaVeiculacao
  split
  · refine creditar_mantem_outras env _ v2 v hne ?_
    rw [(reverter_preserva env db v2).2.2]
    exact hv
  · exact creditar_mantem_outras env db v2 v hne hv

theorem selecionadas_erros (env : Env) (force : Bool) :
    ∀ (l : List Veiculacao) (db : DB) (p e : Nat),
      (processarSelecionadas env force (db, p, e) l).2.2 =
        e + (l.filter (fun w => (arquivoDe db w).isNone)).length := by
  intro l
  induction l with
  | nil => intro db p e; simp [processarSelecionadas]
  | cons u resto ih =>
    intro db p e
    rcases hstep : processarUmaVeiculacao env force db u with ⟨db2, ok⟩
    have harq : db2.arquivos = db.arquivos := by
      have := (passo_preserva env force db u).1
      rw [hstep] at this
      exact this
    have hfiltro : resto.filter (fun w => (arquivoDe db2 w).isNone) =
        resto.filter (fun w => (arquivoDe db w).isNone) := by
      apply List.filter_congr
      intro w _
      rw [arquivoDe_congr db2 db w harq]
    rcases hav : arquivoDe db u with _ | arq
    · have hok : ok = false := by
        have := (passo_sem_arquivo env force db u hav).1
        rw [hstep] at this
        exact this
      subst hok
      unfold processarSelecionadas
      rw [hstep]
      simp only [ih db2 p (e + 1), hfiltro, List.filter_cons, hav]
      simp [Nat.add_assoc, Nat.add_comm 1]
    · have hok : ok = true := by
        have := passo_com_arquivo env force db u arq hav
        rw [hstep] at this
        exact this
      subst hok
      unfold processarSelecionadas
      rw [hstep]
      simp only [ih db2 (p + 1) e, hfiltro, List.filter_cons, hav]
      simp

theorem selecionadas_mantem (env : Env) (force : Bool) :
    ∀ (l : List Veiculacao) (db : DB) (p e : Nat) (v : Veiculacao),
      v ∈ db.veiculacoes →
      (∀ u ∈ l, u.id = v.id → arquivoDe db u = none) →
      v ∈ (processarSelecionadas env force (db, p, e) l).1.veiculacoes := by
  intro l
  induction l with
  | nil => intro db p e v hv _; exact hv
  | cons u resto ih =>
    intro db p e v hv hids
    rcases hstep : processarUmaVeiculacao env force db u with ⟨db2, ok⟩
    have harq : db2.arquivos = db.arquivos := by
      have := (passo_preserva env force db u).1
      rw [hstep] at this
      exact this
    have hids2 : ∀ w ∈ resto, w.id = v.id → arquivoDe db2 w = none := by
      intro w hw hid
      rw [arquivoDe_congr db2 db w harq]
      exact hids w (List.mem_cons_of_mem u hw) hid
    have hv2 : v ∈ db2.veiculacoes := by
      rcases hav : arquivoDe db u with _ | arq
      · have h2 := (passo_sem_arquivo env force db u hav).2
        rw [hstep] at h2
        rw [h2]
        exact hv
      · have hne : (v.id == u.id) = false := by
          rw [beq_eq_false_iff_ne]
          intro hvu
          have h3 := hids u (List.mem_cons_self u resto) hvu.symm
          rw [h3] at hav
          cases hav
        have h4 := passo_mantem_outras env force db u v hne hv
        rw [hstep] at h4
        exact h4
    unfold processarSelecionadas
    rw [hstep]
    cases ok
    · exact ih db2 p (e + 1) v hv2 hids2
    · exact ih db2 (p + 1) e v hv2 hids2

theorem resolverComCache_none (db : DB) (st : MonitorState) (nome : String)
    (hres : resolveArquivoId db nome = none)
    (hcache : ∀ r ∈ st.arquivoCache, r.1 = pyStripLower nome → r.2 = none) :
    (resolverComCache db st nome).2 = none := by
  unfold resolverComCache
  rcases hfind : st.arquivoCache.find? (fun e => e.1 == pyStripLower nome) with _ | e
  · simp only [hfind, Option.map_none']
    exact hres
  · simp only [hfind, Option.map_some']
    have hpred := List.find?_some hfind
    exact hcache e (List.mem_of_find?_eq_some hfind) (by simpa using hpred)

theorem ingest_db_parte (db : DB) (item : IngestItem) (resto : List IngestItem) :
    (ingestaoVeiculacoesLote db (item :: resto)).1 =
      if db.veiculacoes.any (mesmaIdentidade item) then
        (ingestaoVeiculacoesLote db resto).1
      else
        (ingestaoVeiculacoesLote
          { db with veiculacoes := db.veiculacoes ++ [novaVeiculacaoDe db item] }
          resto).1 := by
  by_cases h : db.veiculacoes.any (mesmaIdentidade item) = true
  · rw [if_pos h]
    conv_lhs => unfold ingestaoVeiculacoesLote
    rw [if_pos h]
  · rw [if_neg h]
    conv_lhs => unfold ingestaoVeiculacoesLote
    rw [if_neg h]

theorem payload_contem_nao_cadastrado (db : DB) (st : MonitorState) (p : Propaganda)
    (resto : List Propaganda)
    (hid : (resolverComCache db st p.nome_arquivo).2 = none)
    (hded : (resolverComCache db st p.nome_arquivo).1.dedupeCache.contains
        (chaveDedupe p none) = false) :
    itemNaoCadastrado p ∈ (createVeiculacoesPayload db st (p :: resto)).2 := by
  unfold createVeiculacoesPayload
  rcases hrc : resolverComCache db st p.nome_arquivo with ⟨st1, aid⟩
  have haid : aid = none := by
    rw [hrc] at hid
    exact hid
  subst haid
  have hded2 : st1.dedupeCache.contains (chaveDedupe p none) = false := by
    rw [hrc] at hded
    exact hded
  simp only [hded2, Bool.false_eq_true, if_false]
  rcases createVeiculacoesPayload db
      { st1 with dedupeCache := st1.dedupeCache ++ [chaveDedupe p none] } resto with
    ⟨st2, itens⟩
  exact List.mem_cons_self _ _

theorem ingest_monotono (l : List IngestItem) :
    ∀ (db : DB) (w : Veiculacao), w ∈ db.veiculacoes →
      w ∈ (ingestaoVeiculacoesLote db l).1.veiculacoes := by
  induction l with
  | nil => intro db w hw; exact hw
  | cons item resto ih =>
    intro db w hw
    rw [ingest_db_parte]
    by_cases h : db.veiculacoes.any (mesmaIdentidade item) = true
    · rw [if_pos h]
      exact ih db w hw
    · rw [if_neg h]
      exact ih _ w (List.mem_append_left _ hw)

theorem ingest_guarda_nao_cadastrado (l : List IngestItem) :
    ∀ (db : DB) (item : IngestItem), item ∈ l →
      item.arquivo_audio_id = none →
      ∃ w ∈ (ingestaoVeiculacoesLote db l).1.veiculacoes,
        w.arquivo_audio_id = none ∧ w.nome_arquivo_raw = item.nome_arquivo_raw := by
  induction l with
  | nil => intro db item hin; cases hin
  | cons it resto ih =>
    intro db item hin hraw
    rcases List.mem_cons.mp hin with rfl | hresto
    · rw [ingest_db_parte]
      by_cases h : db.veiculacoes.any (mesmaIdentidade item) = true
      · rw [if_pos h]
        obtain ⟨w0, hw0, hpred⟩ := List.any_eq_true.mp h
        unfold mesmaIdentidade at hpred
        rw [hraw] at hpred
        simp only [Option.isNone_none, if_true, Bool.and_eq_true, beq_iff_eq] at hpred
        refine ⟨w0, ingest_monotono resto db w0 hw0, hpred.1.1.1, hpred.1.1.2⟩
      · rw [if_neg h]
        refine ⟨novaVeiculacaoDe db item, ?_, hraw, rfl⟩
        exact ingest_monotono resto _ _
          (List.mem_append_right _ (List.mem_cons_self _ _))
    · rw [ingest_db_parte]
      by_cases h : db.veiculacoes.any (mesmaIdentidade it) = true
      · rw [if_pos h]
        exact ih db item hresto hraw
      · rw [if_neg h]
        exact ih _ item hresto hraw

theorem isEmpty_map {α β : Type} (f : α → β) (l : List α) :
    (l.map f).isEmpty = l.isEmpty := by
  cases l <;> rfl

theorem decMeta_incMeta (db : DB) (mid : Nat) : decMeta (incMeta db mid) mid = db := by
  unfold decMeta incMeta
  simp only [List.map_map]
  have h : db.metas.map (decExecMeta mid ∘ incExecMeta mid) = db.metas := by
    apply map_eq_self_of
    intro m _
    simp only [Function.comp_apply]
    unfold incExecMeta decExecMeta
    by_cases hm : (m.id == mid) = true
    · rw [if_pos hm]
      have h2 : (({ m with quantidade_executada := m.quantidade_executada + 1 } :
          ContratoArquivoMeta).id == mid) = true := hm
      rw [if_pos h2]
      show ({ m with quantidade_executada := m.quantidade_executada + 1 - 1 } :
        ContratoArquivoMeta) = m
      have h3 : m.quantidade_executada + 1 - 1 = m.quantidade_executada := by omega
      rw [h3]
    · rw [if_neg hm, if_neg hm]
  rw [h]

theorem decItem_incItem (db : DB) (iid : Nat) : decItem (incItem db iid) iid = db := by
  unfold decItem incItem
  simp only [List.map_map]
  have h : db.itens.map (decExecItem iid ∘ incExecItem iid) = db.itens := by
    apply map_eq_self_of
    intro i _
    simp only [Function.comp_apply]
    unfold incExecItem decExecItem
    by_cases hi : (i.id == iid) = true
    · rw [if_pos hi]
      have h2 : (({ i with quantidade_executada := i.quantidade_executada + 1 } :
          ContratoItem).id == iid) = true := hi
      rw [if_pos h2]
      show ({ i with quantidade_executada := i.quantidade_executada + 1 - 1 } :
        ContratoItem) = i
      have h3 : i.quantidade_executada + 1 - 1 = i.quantidade_executada := by omega
      rw [h3]
    · rw [if_neg hi, if_neg hi]
  rw [h]

theorem setVeiculacao_idem (db : DB) (vid : Nat) (f : Veiculacao → Veiculacao)
    (hid : ∀ w, (f w).id = w.id) (hidem : ∀ w, f (f w) = f w) :
    setVeiculacao (setVeiculacao db vid f) vid f = setVeiculacao db vid f := by
  unfold setVeiculacao
  simp only [List.map_map]
  congr 1
  apply List.map_congr_left
  intro w _
  simp only [Function.comp_apply]
  by_cases h : (w.id == vid) = true
  · simp only [if_pos h]
    have h2 : ((f w).id == vid) = true := by
      rw [hid w]
      exact h
    simp only [if_pos h2]
    exact hidem w
  · simp only [if_neg h]

theorem resolver_congr (env : Env) (db2 db : DB) (contrato : Contrato)
    (tipo : Option String) (h : db2.itens = db.itens) :
    resolverItemContratoParaVeiculacao env db2 contrato tipo =
      resolverItemContratoParaVeiculacao env db contrato tipo := by
  unfold resolverItemContratoParaVeiculacao porTipoItem itensDoContrato
  rw [h]

theorem itensDoContrato_incItem (db : DB) (cid iid : Nat) :
    itensDoContrato (incItem db iid) cid =
      (itensDoContrato db cid).map (incExecItem iid) := by
  unfold itensDoContrato incItem
  refine filter_map_pres _ _ ?_ db.itens
  intro i
  unfold incExecItem
  split <;> rfl

theorem porTipoItem_incItem (db : DB) (contrato : Contrato) (tipo : Option String)
    (iid : Nat) :
    porTipoItem (incItem db iid) contrato tipo =
      (porTipoItem db contrato tipo).map (incExecItem iid) := by
  unfold porTipoItem
  rw [itensDoContrato_incItem]
  split
  · refine find?_map_pres _ _ ?_ _
    intro i
    unfold incExecItem
    split <;> rfl
  · rfl

theorem resolver_incItem (env : Env) (db : DB) (contrato : Contrato)
    (tipo : Option String) (iid : Nat) :
    resolverItemContratoParaVeiculacao env (incItem db iid) contrato tipo =
      (resolverItemContratoParaVeiculacao env db contrato tipo).map (incExecItem iid) := by
  unfold resolverItemContratoParaVeiculacao
  rw [itensDoContrato_incItem, porTipoItem_incItem,
    isEmpty_map (incExecItem iid) (itensDoContrato db contrato.id)]
  by_cases he : (itensDoContrato db contrato.id).isEmpty = true
  · simp only [he, if_true, Option.map_none']
  · simp only [he, Bool.false_eq_true, if_false]
    rcases porTipoItem db contrato tipo with _ | item
    · simp only [Option.map_none', List.length_map]
      by_cases hl : ((itensDoContrato db contrato.id).length == 1) = true
      · simp only [hl, if_true, List.head?_map]
      · simp only [hl, Bool.false_eq_true, if_false]
        by_cases hf : (pyStripLower env.fallbackStrategy == "first") = true
        · simp only [hf, if_true, List.head?_map]
        · simp only [hf, Bool.false_eq_true, if_false, Option.map_none']
    · simp only [Option.map_some']

theorem arquivoDe_marca (db : DB) (cid : Nat) (v : Veiculacao) :
    arquivoDe db (marcaContabilizada cid v) = arquivoDe db v := rfl

theorem elegivel_marca (arquivo : ArquivoAudio) (cid : Nat) (v : Veiculacao) :
    contratoElegivel arquivo (marcaContabilizada cid v) = contratoElegivel arquivo v := rfl

theorem bloqueio_marca (env : Env) (cid : Nat) (v : Veiculacao) :
    auditoriaAutomaticaBloqueada env (marcaContabilizada cid v) =
      auditoriaAutomaticaBloqueada env v := rfl

theorem metaParaCredito_marca (contrato : Contrato) (cid : Nat) (v : Veiculacao) :
    metaParaCredito contrato (marcaContabilizada cid v) = metaParaCredito contrato v := rfl

theorem incMeta_setVeiculacao_comm (db : DB) (vid mid : Nat)
    (f : Veiculacao → Veiculacao) :
    incMeta (setVeiculacao db vid f) mid = setVeiculacao (incMeta db mid) vid f := rfl

theorem decMeta_setVeiculacao_comm (db : DB) (vid mid : Nat)
    (f : Veiculacao → Veiculacao) :
    decMeta (setVeiculacao db vid f) mid = setVeiculacao (decMeta db mid) vid f := rfl

theorem incItem_setVeiculacao_comm (db : DB) (vid iid : Nat)
    (f : Veiculacao → Veiculacao) :
    incItem (setVeiculacao db vid f) iid = setVeiculacao (incItem db iid) vid f := rfl

theorem decItem_setVeiculacao_comm (db : DB) (vid iid : Nat)
    (f : Veiculacao → Veiculacao) :
    decItem (setVeiculacao db vid f) iid = setVeiculacao (decItem db iid) vid f := rfl

theorem passo_credita_meta (env : Env) (force : Bool) (db : DB) (v : Veiculacao)
    (arquivo : ArquivoAudio) (contrato : Contrato) (meta : ContratoArquivoMeta)
    (hp : v.processado = false)
    (ha : arquivoDe db v = some arquivo)
    (hc : db.contratos.find? (contratoElegivel arquivo v) = some contrato)
    (hb : auditoriaAutomaticaBloqueada env v = none)
    (hm : db.metas.find? (metaParaCredito contrato v) = some meta) :
    processarUmaVeiculacao env force db v =
      (setVeiculacao (incMeta db meta.id) v.id (marcaContabilizada contrato.id), true) := by
  rw [passo_pendente env force db v hp]
  unfold creditarVeiculacao
  rw [ha]
  simp only [hc, hb, hm]

theorem passo_credita_item (env : Env) (force : Bool) (db : DB) (v : Veiculacao)
    (arquivo : ArquivoAudio) (contrato : Contrato) (item : ContratoItem)
    (hp : v.processado = false)
    (ha : arquivoDe db v = some arquivo)
    (hc : db.contratos.find? (contratoElegivel arquivo v) = some contrato)
    (hb : auditoriaAutomaticaBloqueada env v = none)
    (hm : db.metas.find? (metaParaCredito contrato v) = none)
    (hi : resolverItemContratoParaVeiculacao env db contrato v.tipo_programa = some item) :
    processarUmaVeiculacao env force db v =
      (setVeiculacao (incItem db item.id) v.id (marcaContabilizada contrato.id), true) := by
  rw [passo_pendente env force db v hp]
  unfold creditarVeiculacao
  rw [ha]
  simp only [hc, hb, hm, hi]

theorem passo_force_meta (env : Env) (db : DB) (v : Veiculacao)
    (arquivo : ArquivoAudio) (contrato : Contrato) (meta : ContratoArquivoMeta)
    (hcid : contrato.id ≠ 0)
    (ha : arquivoDe db v = some arquivo)
    (hc : db.contratos.find? (contratoElegivel arquivo v) = some contrato)
    (hb : auditoriaAutomaticaBloqueada env v = none)
    (hm : db.metas.find? (metaParaCredito contrato v) = some meta)
    (hnn : 0 ≤ meta.quantidade_executada) :
    processarUmaVeiculacao env true
      (setVeiculacao (incMeta db meta.id) v.id (marcaContabilizada contrato.id))
      (marcaContabilizada contrato.id v) =
    (setVeiculacao (incMeta db meta.id) v.id (marcaContabilizada contrato.id), true) := by
  show creditarVeiculacao env
      (reverterCreditoAnterior env
        (setVeiculacao (incMeta db meta.id) v.id (marcaContabilizada contrato.id))
        (marcaContabilizada contrato.id v))
      (marcaContabilizada contrato.id v) = _
  have hinv : ∀ m, metaParaCredito contrato v (incExecMeta meta.id m) =
      metaParaCredito contrato v m := by
    intro m
    unfold metaParaCredito incExecMeta
    split <;> rfl
  have hbusca : buscarMetaContabilizada
      (setVeiculacao (incMeta db meta.id) v.id (marcaContabilizada contrato.id))
      (marcaContabilizada contrato.id v) = some (incExecMeta meta.id meta) := by
    unfold buscarMetaContabilizada
    have h1 : (!natTruthy (marcaContabilizada contrato.id v).contrato_id) = false := by
      show (!natTruthy (some contrato.id)) = false
      simp [natTruthy, hcid]
    simp only [h1, Bool.false_eq_true, if_false]
    show (db.metas.map (incExecMeta meta.id)).find? (metaParaCredito contrato v) = _
    rw [find?_map_pres (incExecMeta meta.id) (metaParaCredito contrato v) hinv db.metas, hm]
    rfl
  have hpos : (incExecMeta meta.id meta).quantidade_executada > 0 := by
    unfold incExecMeta
    rw [if_pos (by simp)]
    show meta.quantidade_executada + 1 > 0
    omega
  have hrev : reverterCreditoAnterior env
      (setVeiculacao (incMeta db meta.id) v.id (marcaContabilizada contrato.id))
      (marcaContabilizada contrato.id v) =
      setVeiculacao db v.id (marcaContabilizada contrato.id) := by
    unfold reverterCreditoAnterior
    simp only [hbusca, hpos, if_true]
    rw [incExecMeta_id]
    rw [decMeta_setVeiculacao_comm, decMeta_incMeta]
  rw [hrev]
  unfold creditarVeiculacao
  have ha2 : arquivoDe (setVeiculacao db v.id (marcaContabilizada contrato.id))
      (marcaContabilizada contrato.id v) = some arquivo := by
    rw [arquivoDe_marca,
      arquivoDe_congr (setVeiculacao db v.id (marcaContabilizada contrato.id)) db v rfl]
    exact ha
  rw [ha2]
  have hc2 : (setVeiculacao db v.id (marcaContabilizada contrato.id)).contratos.find?
      (contratoElegivel arquivo (marcaContabilizada contrato.id v)) = some contrato := by
    show db.contratos.find? (contratoElegivel arquivo (marcaContabilizada contrato.id v)) = _
    rw [elegivel_marca]
    exact hc
  simp only [hc2]
  have hb2 : auditoriaAutomaticaBloqueada env (marcaContabilizada contrato.id v) = none := by
    rw [bloqueio_marca]
    exact hb
  simp only [hb2]
  have hm2 : (setVeiculacao db v.id (marcaContabilizada contrato.id)).metas.find?
      (metaParaCredito contrato (marcaContabilizada contrato.id v)) = some meta := by
    show db.metas.find? (metaParaCredito contrato (marcaContabilizada contrato.id v)) = _
    rw [metaParaCredito_marca]
    exact hm
  simp only [hm2]
  show (setVeiculacao
      (incMeta (setVeiculacao db v.id (marcaContabilizada contrato.id)) meta.id)
      v.id (marcaContabilizada contrato.id), true) = _
  rw [incMeta_setVeiculacao_comm,
    setVeiculacao_idem (incMeta db meta.id) v.id (marcaContabilizada contrato.id)
      (fun w => rfl) (fun w => rfl)]

theorem passo_force_item (env : Env) (db : DB) (v : Veiculacao)
    (arquivo : ArquivoAudio) (contrato : Contrato) (item : ContratoItem)
    (hcid : contrato.id ≠ 0)
    (hnodup : (db.contratos.map Contrato.id).Nodup)
    (ha : arquivoDe db v = some arquivo)
    (hc : db.contratos.find? (contratoElegivel arquivo v) = some contrato)
    (hb : auditoriaAutomaticaBloqueada env v = none)
    (hm : db.metas.find? (metaParaCredito contrato v) = none)
    (hi : resolverItemContratoParaVeiculacao env db contrato v.tipo_programa = some item)
    (hnn : 0 ≤ item.quantidade_executada) :
    processarUmaVeiculacao env true
      (setVeiculacao (incItem db item.id) v.id (marcaContabilizada contrato.id))
      (marcaContabilizada contrato.id v) =
    (setVeiculacao (incItem db item.id) v.id (marcaContabilizada contrato.id), true) := by
  show creditarVeiculacao env
      (reverterCreditoAnterior env
        (setVeiculacao (incItem db item.id) v.id (marcaContabilizada contrato.id))
        (marcaContabilizada contrato.id v))
      (marcaContabilizada contrato.id v) = _
  have h1 : (!natTruthy (marcaContabilizada contrato.id v).contrato_id) = false := by
    show (!natTruthy (some contrato.id)) = false
    simp [natTruthy, hcid]
  have hbusca : buscarMetaContabilizada
      (setVeiculacao (incItem db item.id) v.id (marcaContabilizada contrato.id))
      (marcaContabilizada contrato.id v) = none := by
    unfold buscarMetaContabilizada
    simp only [h1, Bool.false_eq_true, if_false]
    show db.metas.find? (metaParaCredito contrato v) = none
    exact hm
  have hfc : db.contratos.find?
      (fun c => sqlEqNat c.id (marcaContabilizada contrato.id v).contrato_id) =
      some contrato := by
    have hmem : contrato ∈ db.contratos := List.mem_of_find?_eq_some hc
    exact find?_key_nodup Contrato.id db.contratos contrato hnodup hmem
  have hri : resolverItemContratoParaVeiculacao env
      (setVeiculacao (incItem db item.id) v.id (marcaContabilizada contrato.id)) contrato
      (marcaContabilizada contrato.id v).tipo_programa = some (incExecItem item.id item) := by
    rw [resolver_congr env
        (setVeiculacao (incItem db item.id) v.id (marcaContabilizada contrato.id))
        (incItem db item.id) contrato
        (marcaContabilizada contrato.id v).tipo_programa rfl,
      resolver_incItem]
    show (resolverItemContratoParaVeiculacao env db contrato
        v.tipo_programa).map (incExecItem item.id) = _
    rw [hi]
    rfl
  have hbi : buscarItemContabilizado env
      (setVeiculacao (incItem db item.id) v.id (marcaContabilizada contrato.id))
      (marcaContabilizada contrato.id v) = some (incExecItem item.id item) := by
    unfold buscarItemContabilizado
    simp only [h1, Bool.false_eq_true, if_false]
    have hfc2 : (setVeiculacao (incItem db item.id) v.id
        (marcaContabilizada contrato.id)).contratos.find?
        (fun c => sqlEqNat c.id (marcaContabilizada contrato.id v).contrato_id) =
        some contrato := hfc
    simp only [hfc2]
    exact hri
  have hpos : (incExecItem item.id item).quantidade_executada > 0 := by
    unfold incExecItem
    rw [if_pos (by simp)]
    show item.quantidade_executada + 1 > 0
    omega
  have hrev : reverterCreditoAnterior env
      (setVeiculacao (incItem db item.id) v.id (marcaContabilizada contrato.id))
      (marcaContabilizada contrato.id v) =
      setVeiculacao db v.id (marcaContabilizada contrato.id) := by
    unfold reverterCreditoAnterior
    simp only [hbusca]
    unfold reverterViaItem
    simp only [hbi, hpos, if_true]
    rw [incExecItem_id]
    rw [decItem_setVeiculacao_comm, decItem_incItem]
  rw [hrev]
  unfold creditarVeiculacao
  have ha2 : arquivoDe (setVeiculacao db v.id (marcaContabilizada contrato.id))
      (marcaContabilizada contrato.id v) = some arquivo := by
    rw [arquivoDe_marca,
      arquivoDe_congr (setVeiculacao db v.id (marcaContabilizada contrato.id)) db v rfl]
    exact ha
  rw [ha2]
  have hc2 : (setVeiculacao db v.id (marcaContabilizada contrato.id)).contratos.find?
      (contratoElegivel arquivo (marcaContabilizada contrato.id v)) = some contrato := by
    show db.contratos.find? (contratoElegivel arquivo (marcaContabilizada contrato.id v)) = _
    rw [elegivel_marca]
    exact hc
  simp only [hc2]
  have hb2 : auditoriaAutomaticaBloqueada env (marcaContabilizada contrato.id v) = none := by
    rw [bloqueio_marca]
    exact hb
  simp only [hb2]
  have hm2 : (setVeiculacao db v.id (marcaContabilizada contrato.id)).metas.find?
      (metaParaCredito contrato (marcaContabilizada contrato.id v)) = none := by
    show db.metas.find? (metaParaCredito contrato (marcaContabilizada contrato.id v)) = none
    rw [metaParaCredito_marca]
    exact hm
  simp only [hm2]
  have hi2 : resolverItemContratoParaVeiculacao env
      (setVeiculacao db v.id (marcaContabilizada contrato.id)) contrato
      (marcaContabilizada contrato.id v).tipo_programa = some item := by
    rw [resolver_congr env
        (setVeiculacao db v.id (marcaContabilizada contrato.id)) db contrato
        (marcaContabilizada contrato.id v).tipo_programa rfl]
    show resolverItemContratoParaVeiculacao env db contrato v.tipo_programa = some item
    exact hi
  simp only [hi2]
  show (setVeiculacao
      (incItem (setVeiculacao db v.id (marcaContabilizada contrato.id)) item.id)
      v.id (marcaContabilizada contrato.id), true) = _
  rw [incItem_setVeiculacao_comm,
    setVeiculacao_idem (incItem db item.id) v.id (marcaContabilizada contrato.id)
      (fun w => rfl) (fun w => rfl)]

theorem filter_nil_of {α : Type} (p : α → Bool) :
    ∀ l : List α, (∀ a ∈ l, p a = false) → l.filter p = [] := by
  intro l
  induction l with
  | nil => intro _; rfl
  | cons a t ih =>
    intro h
    rw [List.filter_cons]
    have ha := h a (List.mem_cons_self a t)
    simp only [ha, Bool.false_eq_true, if_false]
    exact ih (fun b hb => h b (List.mem_cons_of_mem a hb))

theorem filter_and_nil {α : Type} (p q : α → Bool) :
    ∀ l : List α, l.filter p = [] → l.filter (fun a => p a && q a) = [] := by
  intro l
  induction l with
  | nil => intro _; rfl
  | cons a t ih =>
    intro h
    rw [List.filter_cons] at h ⊢
    by_cases hp : p a = true
    · rw [if_pos hp] at h
      exact absurd h (by simp)
    · have hpa : p a = false := by
        revert hp
        cases (p a) <;> simp
      rw [if_neg hp] at h
      simp only [hpa, Bool.false_and, Bool.false_eq_true, if_false]
      exact ih h

theorem filter_and_singleton {α : Type} (p q : α → Bool) (v : α) (hq : q v = true) :
    ∀ l : List α, l.filter p = [v] → l.filter (fun a => p a && q a) = [v] := by
  intro l
  induction l with
  | nil => intro h; simp at h
  | cons a t ih =>
    intro h
    rw [List.filter_cons] at h ⊢
    by_cases hp : p a = true
    · rw [if_pos hp] at h
      injection h with h1 h2
      subst h1
      have hcond : (p a && q a) = true := by
        rw [hp, hq]
        rfl
      rw [if_pos hcond, filter_and_nil p q t h2]
    · have hpa : p a = false := by
        revert hp
        cases (p a) <;> simp
      rw [if_neg hp] at h
      simp only [hpa, Bool.false_and, Bool.false_eq_true, if_false]
      exact ih h

theorem pass_sem_pendentes (env : Env) (db : DB) (d1 d2 : Nat)
    (h : db.veiculacoes.filter (fun w =>
      veiculacaoNoPeriodo d1 d2 w && (false || !w.processado)) = []) :
    processarVeiculacoesPeriodo env db d1 d2 false = (db, ⟨0, 0, 0⟩) := by
  simp only [processarVeiculacoesPeriodo, h]
  rfl

theorem pass_unica (env : Env) (force : Bool) (db : DB) (d1 d2 : Nat)
    (v : Veiculacao) (db2 : DB)
    (hsel : db.veiculacoes.filter (fun w =>
      veiculacaoNoPeriodo d1 d2 w && (force || !w.processado)) = [v])
    (hstep : processarUmaVeiculacao env force db v = (db2, true)) :
    processarVeiculacoesPeriodo env db d1 d2 force = (db2, ⟨1, 0, 1⟩) := by
  simp only [processarVeiculacoesPeriodo, hsel]
  simp only [List.isEmpty_cons, Bool.false_eq_true, if_false]
  unfold processarSelecionadas
  rw [hstep]
  rfl

theorem selecao_force_eq (d1 d2 : Nat) (l : List Veiculacao) :
    l.filter (fun w => veiculacaoNoPeriodo d1 d2 w && (true || !w.processado)) =
      l.filter (fun w => veiculacaoNoPeriodo d1 d2 w) := by
  apply List.filter_congr
  intro w _
  simp

theorem filtro_marca (d1 d2 cid vid : Nat) (l : List Veiculacao) :
    (l.map (fun w => if w.id == vid then marcaContabilizada cid w else w)).filter
      (fun w => veiculacaoNoPeriodo d1 d2 w) =
    (l.filter (fun w => veiculacaoNoPeriodo d1 d2 w)).map
      (fun w => if w.id == vid then marcaContabilizada cid w else w) := by
  apply filter_map_pres
  intro w
  by_cases h : (w.id == vid) = true
  · rw [if_pos h]
    rfl
  · rw [if_neg h]

/-! Claim theorems. -/

/-- C1: the claim states that deleting an event that is accounted
(`processado` and `contabilizada`) decrements the counter it credited.  The
endpoint `deletar_veiculacao` only removes the event row and appends a
warning to the message; no counter table is ever touched.  On the concrete
state whose accounted event had credited the single contract item
(`quantidade_executada = 1`), deletion removes the event but leaves the item
counter at 1, diverging from the claim (and from the repository's own test
`test_deletar_veiculacao_processada_reverte_contador`). -/
theorem C1_deletar_nao_reverte_contador :
    (∀ (db : DB) (vid : Nat),
      (deletarVeiculacao db vid).1.itens = db.itens ∧
      (deletarVeiculacao db vid).1.metas = db.metas) ∧
    (deletarVeiculacao dbDelecao 1).2 = DeletarResultado.deleted true ∧
    (deletarVeiculacao dbDelecao 1).1.veiculacoes = [] ∧
    (deletarVeiculacao dbDelecao 1).1.itens.map ContratoItem.quantidade_executada = [1] ∧
    (deletarVeiculacao dbDelecao 1).1.metas = [] := by
  refine ⟨?_, ?_, ?_, ?_, ?_⟩
  · intro db vid
    unfold deletarVeiculacao
    split <;> exact ⟨rfl, rfl⟩
  · decide
  · decide
  · decide
  · decide

/-- C2: the claim states that the second submission of the same identity key
is stored once and reported as existing.  The endpoint `criar_veiculacao`
inserts unconditionally; on a migrated database the second insert violates
the unique event index (`IntegrityError`, HTTP 500), so the monitor fallback
counts it as a failure, not as existing — diverging from the claim (and from
the repository's own tests `test_criar_veiculacao_idempotente_nao_duplica_registro`
and `test_ingestao_lote_idempotente`). -/
theorem C2_segunda_submissao_contada_como_falha :
    (createVeiculacoesFallback dbIngestao [itemDuplicado, itemDuplicado]).2 =
      LoteResultado.mk 1 0 1 ∧
    (createVeiculacoesFallback dbIngestao [itemDuplicado, itemDuplicado]).1.veiculacoes.length = 1 := by
  decide

/-- C4: on the scenario event (2026-02-16 11:30, frequency 102.7, automatic
source, default rule `102.7|Mon-Fri|11:00-14:00`) reconciliation ends
processed, not accounted, contract linked, with no counter change, and the
otherwise-identical manually-sourced twin is credited — but the rule's reason
code is computed and then discarded, never recorded on the event (the
`motivo_nao_contabilizada` column added by migration 0015 is unmapped and
stays `NULL`), diverging from the claim's "reason code recorded". -/
theorem C4_janela_bloqueia_sem_gravar_motivo :
    carregarRegrasBloqueio "102.7|1-5|11:00-14:00|obs_video" = some [regraPadrao] ∧
    (processarVeiculacoesPeriodo envPadrao dbJanela 0 0 false).1.veiculacoes =
      [{ vAutoJanela with processado := true, contabilizada := false,
                          contrato_id := some 1 }] ∧
    (processarVeiculacoesPeriodo envPadrao dbJanela 0 0 false).1.veiculacoes.map
      Veiculacao.motivo_nao_contabilizada = [none] ∧
    (processarVeiculacoesPeriodo envPadrao dbJanela 0 0 false).1.itens = dbJanela.itens ∧
    (processarVeiculacoesPeriodo envPadrao dbJanela 0 0 false).1.metas = [] ∧
    (processarVeiculacoesPeriodo envPadrao dbJanela 0 0 false).2 =
      ResultadoProcessamento.mk 1 0 1 ∧
    (processarVeiculacoesPeriodo envPadrao dbJanelaManual 0 0 false).1.itens =
      [ContratoItem.mk 1 1 "esporte" 1] ∧
    (processarVeiculacoesPeriodo envPadrao dbJanelaManual 0 0 false).1.veiculacoes.map
      Veiculacao.contabilizada = [true] := by
  refine ⟨?_, ?_, ?_, ?_, ?_, ?_, ?_, ?_⟩ <;> decide

/-- C5: for a pending event with a resolved audio file, any contract selected
by reconciliation is a stored contract with the same client as the file,
active status, validity start at or before the event date, and validity end
null or at or after it; when the event carries a (truthy) frequency the
selected contract's scope equals that frequency, is the wildcard `ambas`, or
is unset — so a frequency-scoped contract is never selected (hence never
credited) for a different frequency, and an open-ended contract stays
eligible.  When no contract matches, the event ends processed, not accounted,
with no contract link, and no counter changes. -/
theorem C5_resolucao_contrato (env : Env) (force : Bool) (db : DB) (v : Veiculacao)
    (arquivo : ArquivoAudio)
    (hp : v.processado = false)
    (ha : arquivoDe db v = some arquivo) :
    (∀ c, db.contratos.find? (contratoElegivel arquivo v) = some c →
       c ∈ db.contratos ∧
       c.cliente_id = arquivo.cliente_id ∧
       c.status_contrato = "ativo" ∧
       c.data_inicio ≤ v.data_hora.dia ∧
       (c.data_fim = none ∨ ∃ f, c.data_fim = some f ∧ v.data_hora.dia ≤ f) ∧
       (∀ fr, v.frequencia = some fr → fr ≠ "" →
         c.frequencia = some fr ∨ c.frequencia = some "ambas" ∨ c.frequencia = none)) ∧
    (db.contratos.find? (contratoElegivel arquivo v) = none →
       processarUmaVeiculacao env force db v =
         (setVeiculacao db v.id (marcaNaoContabilizada none), true) ∧
       (processarUmaVeiculacao env force db v).1.itens = db.itens ∧
       (processarUmaVeiculacao env force db v).1.metas = db.metas ∧
       (∀ w ∈ db.veiculacoes, w.id = v.id →
          marcaNaoContabilizada none w ∈
            (processarUmaVeiculacao env force db v).1.veiculacoes)) := by
  constructor
  · intro c hc
    have hmem := List.mem_of_find?_eq_some hc
    have hpred : contratoElegivel arquivo v c = true := List.find?_some hc
    unfold contratoElegivel at hpred
    simp only [Bool.and_eq_true, beq_iff_eq, decide_eq_true_eq] at hpred
    obtain ⟨⟨⟨⟨h1, h2⟩, h3⟩, h4⟩, h5⟩ := hpred
    refine ⟨hmem, h1, h2, h3, ?_, ?_⟩
    · cases hdf : c.data_fim with
      | none => exact Or.inl rfl
      | some f =>
        refine Or.inr ⟨f, rfl, ?_⟩
        rw [hdf] at h4
        simpa using h4
    · intro fr hfr hne
      rw [hfr] at h5
      have htr : strTruthy (some fr) = true := by simp [strTruthy, hne]
      rw [htr] at h5
      simpa [or_assoc] using h5
  · intro hnone
    have hstep : processarUmaVeiculacao env force db v =
        (setVeiculacao db v.id (marcaNaoContabilizada none), true) := by
      rw [passo_pendente env force db v hp]
      unfold creditarVeiculacao
      rw [ha]
      simp only [hnone]
    refine ⟨hstep, ?_, ?_, ?_⟩
    · rw [hstep]
      rfl
    · rw [hstep]
      rfl
    · intro w hw hid
      rw [hstep]
      have hmm := List.mem_map_of_mem
        (fun u => if u.id == v.id then marcaNaoContabilizada none u else u) hw
      simpa [setVeiculacao, hid] using hmm

/-- C5 witness: on the state with a registered file and no contract, the
pending event is processed, not accounted and left unlinked. -/
theorem C5_resolucao_contrato_witness :
    arquivoDe dbSemContrato vSemContrato = some ⟨2, 7, "sem_contrato.mp3"⟩ ∧
    dbSemContrato.contratos.find?
      (contratoElegivel ⟨2, 7, "sem_contrato.mp3"⟩ vSemContrato) = none ∧
    processarUmaVeiculacao envPadrao false dbSemContrato vSemContrato =
      (setVeiculacao dbSemContrato vSemContrato.id (marcaNaoContabilizada none), true) :=
  ⟨by decide, by decide,
   ((C5_resolucao_contrato envPadrao false dbSemContrato vSemContrato
      ⟨2, 7, "sem_contrato.mp3"⟩ (by decide) (by decide)).2 (by decide)).1⟩

/-- C6: for a credited event the counter is chosen in this order: an active
file-specific quota for (resolved contract, resolved file) when one exists
(the first such row is incremented and the event is marked accounted);
otherwise the contract item returned by the resolution cascade — the exact
program-type match when the event carries a truthy type and such an item
exists, else the contract's single item, else the first item under the
default `first` fallback policy and no item under any other policy; and when
no counter is resolvable the event ends processed and not accounted with no
counter changed. -/
theorem C6_escolha_contador (env : Env) (force : Bool) (db : DB) (v : Veiculacao)
    (arquivo : ArquivoAudio) (contrato : Contrato)
    (hp : v.processado = false)
    (ha : arquivoDe db v = some arquivo)
    (hc : db.contratos.find? (contratoElegivel arquivo v) = some contrato)
    (hb : auditoriaAutomaticaBloqueada env v = none) :
    (∀ meta, db.metas.find? (metaParaCredito contrato v) = some meta →
       meta ∈ db.metas ∧ metaParaCredito contrato v meta = true ∧
       processarUmaVeiculacao env force db v =
         (setVeiculacao (incMeta db meta.id) v.id (marcaContabilizada contrato.id), true)) ∧
    (db.metas.find? (metaParaCredito contrato v) = none →
       (∀ item, resolverItemContratoParaVeiculacao env db contrato v.tipo_programa =
            some item →
          item ∈ itensDoContrato db contrato.id ∧
          processarUmaVeiculacao env force db v =
            (setVeiculacao (incItem db item.id) v.id (marcaContabilizada contrato.id), true)) ∧
       (resolverItemContratoParaVeiculacao env db contrato v.tipo_programa = none →
          processarUmaVeiculacao env force db v =
            (setVeiculacao db v.id (marcaNaoContabilizada (some contrato.id)), true))) ∧
    (∀ item, porTipoItem db contrato v.tipo_programa = some item →
       resolverItemContratoParaVeiculacao env db contrato v.tipo_programa = some item) ∧
    (porTipoItem db contrato v.tipo_programa = none →
       (∀ item, itensDoContrato db contrato.id = [item] →
          resolverItemContratoParaVeiculacao env db contrato v.tipo_programa = some item) ∧
       ((itensDoContrato db contrato.id).length ≠ 1 →
         (pyStripLower env.fallbackStrategy = "first" →
           resolverItemContratoParaVeiculacao env db contrato v.tipo_programa =
             (itensDoContrato db contrato.id).head?) ∧
         (pyStripLower env.fallbackStrategy ≠ "first" →
           resolverItemContratoParaVeiculacao env db contrato v.tipo_programa = none))) ∧
    (itensDoContrato db contrato.id = [] →
       resolverItemContratoParaVeiculacao env db contrato v.tipo_programa = none) ∧
    (∀ t, v.tipo_programa = some t → t ≠ "" →
       porTipoItem db contrato v.tipo_programa =
         (itensDoContrato db contrato.id).find? (fun i => i.tipo_programa == t)) := by
  have hred : processarUmaVeiculacao env force db v =
      (match db.metas.find? (metaParaCredito contrato v) with
       | some meta =>
         (setVeiculacao (incMeta db meta.id) v.id (marcaContabilizada contrato.id), true)
       | none =>
         match resolverItemContratoParaVeiculacao env db contrato v.tipo_programa with
         | some item =>
           (setVeiculacao (incItem db item.id) v.id (marcaContabilizada contrato.id), true)
         | none =>
           (setVeiculacao db v.id (marcaNaoContabilizada (some contrato.id)), true)) := by
    rw [passo_pendente env force db v hp]
    unfold creditarVeiculacao
    rw [ha]
    simp only [hc, hb]
  refine ⟨?_, ?_, ?_, ?_, ?_, ?_⟩
  · intro meta hm
    refine ⟨List.mem_of_find?_eq_some hm, List.find?_some hm, ?_⟩
    rw [hred, hm]
  · intro hmn
    constructor
    · intro item hres
      refine ⟨resolver_mem env db contrato v.tipo_programa item hres, ?_⟩
      rw [hred, hmn, hres]
    · intro hres
      rw [hred, hmn, hres]
  · intro item hpt
    have hmem := porTipo_mem db contrato v.tipo_programa item hpt
    have hne : (itensDoContrato db contrato.id).isEmpty = false := by
      simpa [List.isEmpty_iff] using List.ne_nil_of_mem hmem
    unfold resolverItemContratoParaVeiculacao
    rw [hne]
    simp [hpt]
  · intro hpt
    constructor
    · intro item heq
      simp [resolverItemContratoParaVeiculacao, heq, hpt]
    · intro hlen
      have hlen2 : ((itensDoContrato db contrato.id).length == 1) = false := by
        simpa using hlen
      by_cases he : (itensDoContrato db contrato.id).isEmpty = true
      · have hnil : itensDoContrato db contrato.id = [] := by
          simpa [List.isEmpty_iff] using he
        constructor
        · intro _
          simp [resolverItemContratoParaVeiculacao, hnil]
        · intro _
          simp [resolverItemContratoParaVeiculacao, hnil]
      · have he2 : (itensDoContrato db contrato.id).isEmpty = false := by
          simpa using he
        constructor
        · intro hfb
          have hfb2 : (pyStripLower env.fallbackStrategy == "first") = true := by
            simpa using hfb
          unfold resolverItemContratoParaVeiculacao
          rw [he2]
          simp only [hpt, hlen2, hfb2]
          rfl
        · intro hfb
          have hfb2 : (pyStripLower env.fallbackStrategy == "first") = false := by
            simpa using hfb
          unfold resolverItemContratoParaVeiculacao
          rw [he2]
          simp only [hpt, hlen2, hfb2]
          rfl
  · intro he
    simp [resolverItemContratoParaVeiculacao, he]
  · intro t ht hne
    unfold porTipoItem
    rw [ht]
    simp [strTruthy, hne]

/-- C6 witness: on the manual-source scenario state the per-file quota query
is empty and the `esporte` item is resolved by exact type match and credited. -/
theorem C6_escolha_contador_witness :
    arquivoDe dbJanelaManual vManualJanela = some arqJanela ∧
    dbJanelaManual.contratos.find? (contratoElegivel arqJanela vManualJanela) =
      some contratoJanela ∧
    auditoriaAutomaticaBloqueada envPadrao vManualJanela = none ∧
    dbJanelaManual.metas.find? (metaParaCredito contratoJanela vManualJanela) = none ∧
    resolverItemContratoParaVeiculacao envPadrao dbJanelaManual contratoJanela
      vManualJanela.tipo_programa = some itemJanela ∧
    processarUmaVeiculacao envPadrao false dbJanelaManual vManualJanela =
      (setVeiculacao (incItem dbJanelaManual itemJanela.id) vManualJanela.id
        (marcaContabilizada contratoJanela.id), true) :=
  ⟨by decide, by decide, by decide, by decide, by decide,
   (((C6_escolha_contador envPadrao false dbJanelaManual vManualJanela arqJanela
      contratoJanela (by decide) (by decide) (by decide) (by decide)).2.1
      (by decide)).1 itemJanela (by decide)).2⟩

/-- C9: when every executed counter is non-negative before a reconciliation
pass (and counter primary keys are unique), every counter stays non-negative
after each per-event step — the reversal decrements only counters that are
strictly positive, and all other mutations are increments — and hence after
the whole pass, whether or not it is forced. -/
theorem C9_contadores_permanecem_nao_negativos (env : Env) (force : Bool) (db : DB)
    (v : Veiculacao) (dataInicio dataFim : Nat)
    (hk : chavesUnicas db) (hn : contadoresNaoNegativos db) :
    contadoresNaoNegativos (processarUmaVeiculacao env force db v).1 ∧
    contadoresNaoNegativos (processarVeiculacoesPeriodo env db dataInicio dataFim force).1 := by
  constructor
  · exact (passo_invariantes env force db v hk hn).2
  · simp only [processarVeiculacoesPeriodo]
    split
    · exact hn
    · exact (selecionadas_invariantes env force _ db 0 0 hk hn).2

/-- C9 witness: the invariant holds concretely across the step and the pass
on the audit-exemption scenario state. -/
theorem C9_contadores_permanecem_nao_negativos_witness :
    contadoresNaoNegativos (processarUmaVeiculacao envPadrao false dbJanela vAutoJanela).1 ∧
    contadoresNaoNegativos (processarVeiculacoesPeriodo envPadrao dbJanela 0 0 false).1 :=
  C9_contadores_permanecem_nao_negativos envPadrao false dbJanela vAutoJanela 0 0
    (by decide) (by decide)

/-- C10: an event whose linked audio file does not resolve (null or dangling
link) is counted as an error by every pass and its row is left entirely
unchanged — the per-event step returns before marking it processed or linking
a contract; a pass's error count is exactly the number of selected events
with an unresolved file; and such an event (when pending and in range, with
no resolvable same-id row) survives the pass unchanged and is selected again
by the next non-force pass over the same range. -/
theorem C10_arquivo_nao_resolvido (env : Env) (force : Bool) (db : DB)
    (dataInicio dataFim : Nat) (v : Veiculacao) :
    (arquivoDe db v = none →
       (processarUmaVeiculacao env force db v).2 = false ∧
       (processarUmaVeiculacao env force db v).1.veiculacoes = db.veiculacoes) ∧
    ((processarVeiculacoesPeriodo env db dataInicio dataFim force).2.erros =
       ((db.veiculacoes.filter (fun w =>
           veiculacaoNoPeriodo dataInicio dataFim w && (force || !w.processado))).filter
         (fun w => (arquivoDe db w).isNone)).length) ∧
    (v ∈ db.veiculacoes →
     (∀ u ∈ db.veiculacoes, u.id = v.id → arquivoDe db u = none) →
       v ∈ (processarVeiculacoesPeriodo env db dataInicio dataFim force).1.veiculacoes ∧
       (v.processado = false → veiculacaoNoPeriodo dataInicio dataFim v = true →
         v ∈ (processarVeiculacoesPeriodo env db dataInicio dataFim
               force).1.veiculacoes.filter
           (fun w => veiculacaoNoPeriodo dataInicio dataFim w &&
             (false || !w.processado)))) := by
  refine ⟨passo_sem_arquivo env force db v, ?_, ?_⟩
  · simp only [processarVeiculacoesPeriodo]
    split
    · rename_i hvazio
      have hnil : db.veiculacoes.filter (fun w =>
          veiculacaoNoPeriodo dataInicio dataFim w && (force || !w.processado)) = [] := by
        simpa [List.isEmpty_iff] using hvazio
      rw [hnil]
      rfl
    · rw [selecionadas_erros env force _ db 0 0]
      simp
  · intro hv hids
    have hmem : v ∈ (processarVeiculacoesPeriodo env db dataInicio dataFim
        force).1.veiculacoes := by
      simp only [processarVeiculacoesPeriodo]
      split
      · exact hv
      · refine selecionadas_mantem env force _ db 0 0 v hv ?_
        intro u hu hid
        exact hids u (List.mem_of_mem_filter hu) hid
    refine ⟨hmem, ?_⟩
    intro hp hper
    apply List.mem_filter.mpr
    exact ⟨hmem, by simp [hper, hp]⟩

/-- C10 witness: the single unregistered event makes the pass report one
error, and the event survives the pass unchanged and still pending. -/
theorem C10_arquivo_nao_resolvido_witness :
    ((processarUmaVeiculacao envPadrao false dbRaw vRaw).2 = false ∧
     (processarUmaVeiculacao envPadrao false dbRaw vRaw).1.veiculacoes =
       dbRaw.veiculacoes) ∧
    (processarVeiculacoesPeriodo envPadrao dbRaw 0 0 false).2.erros = 1 ∧
    vRaw ∈ (processarVeiculacoesPeriodo envPadrao dbRaw 0 0 false).1.veiculacoes :=
  ⟨(C10_arquivo_nao_resolvido envPadrao false dbRaw 0 0 vRaw).1 (by decide),
   ((C10_arquivo_nao_resolvido envPadrao false dbRaw 0 0 vRaw).2.1).trans (by decide),
   ((C10_arquivo_nao_resolvido envPadrao false dbRaw 0 0 vRaw).2.2 (by decide)
     (by decide)).1⟩

/-- C7: a parsed candidate whose basename does not resolve to a registered
audio-file identity (no API match, and any cache entry for its normalized
name also says unregistered) still has a submission item built for it
carrying the raw basename and no file link — provided its dedupe key was not
already seen in this run — and submitting any payload containing such an item
to the (spec-modelled) idempotent ingest endpoint leaves the store holding an
event flagged unregistered (null file link, raw basename recorded) rather
than dropping or failing the item. -/
theorem C7_nao_cadastrado_registrado (db db2 : DB) (st : MonitorState)
    (p : Propaganda) (resto : List Propaganda) (payload : List IngestItem)
    (hres : resolveArquivoId db p.nome_arquivo = none)
    (hcache : ∀ r ∈ st.arquivoCache, r.1 = pyStripLower p.nome_arquivo → r.2 = none)
    (hded : (resolverComCache db st p.nome_arquivo).1.dedupeCache.contains
        (chaveDedupe p none) = false)
    (hpay : itemNaoCadastrado p ∈ payload) :
    itemNaoCadastrado p ∈ (createVeiculacoesPayload db st (p :: resto)).2 ∧
    (itemNaoCadastrado p).arquivo_audio_id = none ∧
    (itemNaoCadastrado p).nome_arquivo_raw = some p.nome_arquivo ∧
    (ingestaoVeiculacoesLote db2 payload).1.veiculacoes.any
      (fun w => w.arquivo_audio_id.isNone && w.nome_arquivo_raw == some p.nome_arquivo) =
      true := by
  refine ⟨?_, rfl, rfl, ?_⟩
  · exact payload_contem_nao_cadastrado db st p resto
      (resolverComCache_none db st p.nome_arquivo hres hcache) hded
  · obtain ⟨w, hw, hnone, hraw⟩ :=
      ingest_guarda_nao_cadastrado payload db2 (itemNaoCadastrado p) hpay rfl
    refine List.any_eq_true.mpr ⟨w, hw, ?_⟩
    rw [hnone, hraw]
    simp [itemNaoCadastrado]

/-- C7 witness: the unregistered candidate `DESCONHECIDO.mp3` is built into
the payload with its raw basename and, once submitted, is stored flagged
unregistered. -/
theorem C7_nao_cadastrado_registrado_witness :
    itemNaoCadastrado propNaoCadastrada ∈
      (createVeiculacoesPayload dbIngestao monitorInicial [propNaoCadastrada]).2 ∧
    (ingestaoVeiculacoesLote dbIngestao
        [itemNaoCadastrado propNaoCadastrada]).1.veiculacoes.any
      (fun w => w.arquivo_audio_id.isNone &&
        w.nome_arquivo_raw == some propNaoCadastrada.nome_arquivo) = true :=
  ⟨(C7_nao_cadastrado_registrado dbIngestao dbIngestao monitorInicial
      propNaoCadastrada [] [itemNaoCadastrado propNaoCadastrada]
      (by decide) (by decide) (by decide) (List.mem_cons_self _ _)).1,
   (C7_nao_cadastrado_registrado dbIngestao dbIngestao monitorInicial
      propNaoCadastrada [] [itemNaoCadastrado propNaoCadastrada]
      (by decide) (by decide) (by decide) (List.mem_cons_self _ _)).2.2.2⟩

/-- C8: a log line whose second column, stripped of diacritics and
lowercased, is neither `inicio` nor `in` yields no candidate, however well
formed the rest of the line is. -/
theorem C8_parser_rejeita_acao_nao_inicio
    (cfg : MonitorConfig) (line : String) (dia : Nat) (freq : String)
    (h1 : normalizarTexto ((splitTabRuns (pyStrip line)).getD 1 "") ≠ "inicio")
    (h2 : normalizarTexto ((splitTabRuns (pyStrip line)).getD 1 "") ≠ "in") :
    parseLine cfg line dia freq = none := by
  have hb : (normalizarTexto ((splitTabRuns (pyStrip line)).getD 1 "") == "inicio"
      || normalizarTexto ((splitTabRuns (pyStrip line)).getD 1 "") == "in") = false := by
    rw [Bool.or_eq_false_iff]
    exact ⟨beq_eq_false_iff_ne.mpr h1, beq_eq_false_iff_ne.mpr h2⟩
  simp only [parseLine, hb]
  split
  · rfl
  · split
    · rfl
    · split
      · rfl
      · rfl

/-- C8 witness: the interrupted-action line from the repository's own test
produces no candidate. -/
theorem C8_parser_rejeita_acao_nao_inicio_witness :
    parseLine cfgPadrao linhaInterrompida 0 "102.7" = none :=
  C8_parser_rejeita_acao_nao_inicio cfgPadrao linhaInterrompida 0 "102.7"
    (by decide) (by decide)

/-- C3: a reconciliation pass without `force` over a period whose events are
all already processed is a no-op — the state is returned unchanged (so every
already-processed event and every counter it credited is untouched) and the
summary reports zero; and force-reprocessing a single already-accounted event
whose contracts, items, file quotas and own fields are unchanged since it was
first credited reverses the prior credit before re-evaluating — the per-file
quota counter being decremented in preference to the item counter, mirroring
the crediting order — and then re-credits the same counter, so the state after
the forced pass equals the state after the original crediting pass: the net
change of every counter across the forced reprocess is zero. -/
theorem C3_sem_force_noop_e_force_liquido_zero (env : Env) (db : DB) (d1 d2 : Nat) :
    ((∀ w ∈ db.veiculacoes, veiculacaoNoPeriodo d1 d2 w = true → w.processado = true) →
      processarVeiculacoesPeriodo env db d1 d2 false = (db, ⟨0, 0, 0⟩)) ∧
    (∀ (v : Veiculacao) (arquivo : ArquivoAudio) (contrato : Contrato),
      db.veiculacoes.filter (fun w => veiculacaoNoPeriodo d1 d2 w) = [v] →
      v.processado = false →
      contrato.id ≠ 0 →
      (db.contratos.map Contrato.id).Nodup →
      contadoresNaoNegativos db →
      arquivoDe db v = some arquivo →
      db.contratos.find? (contratoElegivel arquivo v) = some contrato →
      auditoriaAutomaticaBloqueada env v = none →
      ((db.metas.find? (metaParaCredito contrato v)).isSome = true ∨
        (db.metas.find? (metaParaCredito contrato v) = none ∧
          (resolverItemContratoParaVeiculacao env db contrato
            v.tipo_programa).isSome = true)) →
      (processarVeiculacoesPeriodo env
          (processarVeiculacoesPeriodo env db d1 d2 false).1 d1 d2 true).1 =
        (processarVeiculacoesPeriodo env db d1 d2 false).1) := by
  constructor
  · intro hall
    apply pass_sem_pendentes
    apply filter_nil_of
    intro w hw
    by_cases hper : veiculacaoNoPeriodo d1 d2 w = true
    · have hproc := hall w hw hper
      simp [hper, hproc]
    · have hper2 : veiculacaoNoPeriodo d1 d2 w = false := by
        revert hper
        cases (veiculacaoNoPeriodo d1 d2 w) <;> simp
      simp [hper2]
  · intro v arquivo contrato hf hp hcid hnodup hnn ha hc hb hcred
    obtain ⟨hni, hnm⟩ := hnn
    have hq : (false || !v.processado) = true := by
      rw [hp]
      rfl
    have hsel1 : db.veiculacoes.filter (fun w =>
        veiculacaoNoPeriodo d1 d2 w && (false || !w.processado)) = [v] :=
      filter_and_singleton (fun w => veiculacaoNoPeriodo d1 d2 w)
        (fun w => (false || !w.processado)) v hq db.veiculacoes hf
    rcases hmv : db.metas.find? (metaParaCredito contrato v) with _ | meta
    · have hitem : ∃ item, resolverItemContratoParaVeiculacao env db contrato
          v.tipo_programa = some item := by
        rcases hcred with hl | ⟨_, hr⟩
        · rw [hmv] at hl
          simp at hl
        · exact Option.isSome_iff_exists.mp hr
      obtain ⟨item, hi⟩ := hitem
      have hmem : item ∈ db.itens :=
        (List.mem_filter.mp (resolver_mem env db contrato v.tipo_programa item hi)).1
      have hitem_nn : 0 ≤ item.quantidade_executada := hni item hmem
      have hstep1 := passo_credita_item env false db v arquivo contrato item
        hp ha hc hb hmv hi
      have hpass1 := pass_unica env false db d1 d2 v _ hsel1 hstep1
      have hs1 : (processarVeiculacoesPeriodo env db d1 d2 false).1 =
          setVeiculacao (incItem db item.id) v.id (marcaContabilizada contrato.id) := by
        rw [hpass1]
      rw [hs1]
      have hsel2 : (setVeiculacao (incItem db item.id) v.id
          (marcaContabilizada contrato.id)).veiculacoes.filter
          (fun w => veiculacaoNoPeriodo d1 d2 w && (true || !w.processado)) =
          [marcaContabilizada contrato.id v] := by
        rw [selecao_force_eq]
        show (db.veiculacoes.map (fun w =>
            if w.id == v.id then marcaContabilizada contrato.id w else w)).filter
            (fun w => veiculacaoNoPeriodo d1 d2 w) = _
        rw [filtro_marca, hf]
        simp
      have hstep2 := passo_force_item env db v arquivo contrato item
        hcid hnodup ha hc hb hmv hi hitem_nn
      have hpass2 := pass_unica env true _ d1 d2 (marcaContabilizada contrato.id v) _
        hsel2 hstep2
      rw [hpass2]
    · have hmem : meta ∈ db.metas := List.mem_of_find?_eq_some hmv
      have hmeta_nn : 0 ≤ meta.quantidade_executada := hnm meta hmem
      have hstep1 := passo_credita_meta env false db v arquivo contrato meta
        hp ha hc hb hmv
      have hpass1 := pass_unica env false db d1 d2 v _ hsel1 hstep1
      have hs1 : (processarVeiculacoesPeriodo env db d1 d2 false).1 =
          setVeiculacao (incMeta db meta.id) v.id (marcaContabilizada contrato.id) := by
        rw [hpass1]
      rw [hs1]
      have hsel2 : (setVeiculacao (incMeta db meta.id) v.id
          (marcaContabilizada contrato.id)).veiculacoes.filter
          (fun w => veiculacaoNoPeriodo d1 d2 w && (true || !w.processado)) =
          [marcaContabilizada contrato.id v] := by
        rw [selecao_force_eq]
        show (db.veiculacoes.map (fun w =>
            if w.id == v.id then marcaContabilizada contrato.id w else w)).filter
            (fun w => veiculacaoNoPeriodo d1 d2 w) = _
        rw [filtro_marca, hf]
        simp
      have hstep2 := passo_force_meta env db v arquivo contrato meta
        hcid ha hc hb hmv hmeta_nn
      have hpass2 := pass_unica env true _ d1 d2 (marcaContabilizada contrato.id v) _
        hsel2 hstep2
      rw [hpass2]

/-- Witness for C3 on the concrete scenario state: the manual in-window event
is credited by a first pass without force, a second pass with force over the
same period returns the identical state, and a pass over a period with no
pending events leaves the state unchanged with zero counts. -/
theorem C3_sem_force_noop_e_force_liquido_zero_witness :
    (processarVeiculacoesPeriodo envPadrao
        (processarVeiculacoesPeriodo envPadrao dbJanelaManual 0 0 false).1 0 0 true).1 =
      (processarVeiculacoesPeriodo envPadrao dbJanelaManual 0 0 false).1 ∧
    processarVeiculacoesPeriodo envPadrao dbJanelaManual 5 5 false =
      (dbJanelaManual, ⟨0, 0, 0⟩) := by
  constructor
  · exact (C3_sem_force_noop_e_force_liquido_zero envPadrao dbJanelaManual 0 0).2
      vManualJanela arqJanela contratoJanela
      (by decide) (by decide) (by decide) (by decide) (by decide)
      (by decide) (by decide) (by decide) (Or.inr ⟨by decide, by decide⟩)
  · exact (C3_sem_force_noop_e_force_liquido_zero envPadrao dbJanelaManual 5 5).1
      (by decide)

end RadioAds
